import Mathlib

/-!
Verification of the pycryptobot trading core against its specification.

Shallow embedding of the Python sources into Lean 4:
 * `src/models/Trading.py`   — indicator columns (cross-over flags,
   Fibonacci retracement levels);
 * `src/pycryptobot.py`      — the inline `executeJob` control loop
   (signals, buy-near-high veto, exit triggers, margin accounting,
   ledger counters, simulation summary);
 * `src/models/Strategy.py`  — the `Strategy` class (`is_buy_signal`,
   `is_sell_trigger`, `is_wait_trigger`, `check_trailing_buy`);
 * `src/models/PyCryptoBot.py` — the higher-timeframe bull predicates
   `is1hEMA1226Bull` / `is6hEMA1226Bull`.

Python floats are modelled as exact rationals (ℚ).  Python's `round`
(banker's rounding, half to even) and the repository's `truncate`
(`math.floor(f * 10 ** n) / 10 ** n`) are reproduced below.
-/

namespace PyBot

/-- Round half to even, the rounding of the Python built-in `round`:
the nearest integer, ties going to the even neighbour. -/
def halfEven (x : ℚ) : ℤ :=
  let f := x - ⌊x⌋
  if f < 1/2 then ⌊x⌋
  else if 1/2 < f then ⌊x⌋ + 1
  else if ⌊x⌋ % 2 = 0 then ⌊x⌋ else ⌊x⌋ + 1

/-- Python `round(x, n)`: half-to-even rounding at `n` decimal digits. -/
def pyRound (x : ℚ) (n : ℕ) : ℚ :=
  (halfEven (x * 10 ^ n) : ℚ) / 10 ^ n

/-- Python `round(x)` with no digit argument: half-to-even to an integer,
returned as a rational (the repository compares it against floats). -/
def pyRound0 (x : ℚ) : ℚ :=
  (halfEven x : ℚ)

/-- The repository's `truncate(f, n)` (`utils/PyCryptoBot.py`,
`models/PyCryptoBot.py` line 28, `models/Trading.py` line 778):
`math.floor(f * 10 ** n) / 10 ** n`.  The small-value special case
(`f < 0.0001 and n >= 5`) never applies at the 2-digit precision used by
the code under proof. -/
def pyTrunc (x : ℚ) (n : ℕ) : ℚ :=
  (⌊x * 10 ^ n⌋ : ℚ) / 10 ^ n

/-- `truncate(·, 2)`, the display/precision truncation used throughout. -/
def trunc2 (x : ℚ) : ℚ := pyTrunc x 2

/-! ## Trading.py — cross-over columns

`addEMABuySignals` / `addSMABuySignals` / `addMACDBuySignals`
(`src/models/Trading.py` lines 565-649) build, for an inequality column
`holds`, the cross-over column as `holds.ne(holds.shift())` and then zero
it on every row where `holds` is false
(`df.loc[df[col] == False, colco] = False`).  Pandas `ne` against the
shifted column yields `True` on row 0 (`bool ≠ NaN`). -/

/-- Pointwise strict greater-than of two columns (`df.a > df.b`). -/
def gtColumn (xs ys : List ℚ) : List Bool :=
  List.zipWith (fun a b => decide (b < a)) xs ys

/-- Pointwise strict less-than of two columns (`df.a < df.b`). -/
def ltColumn (xs ys : List ℚ) : List Bool :=
  List.zipWith (fun a b => decide (a < b)) xs ys

/-- The cross-over column of an inequality column:
`holds.ne(holds.shift())`, then forced to `False` wherever `holds` is
`False` (rows where the inequality does not currently hold). -/
def coColumn (hs : List Bool) : List Bool :=
  (List.range hs.length).map (fun i =>
    if hs.getD i false then
      (if i = 0 then true else decide (hs.getD i false ≠ hs.getD (i - 1) false))
    else false)

/-- `ema12gtema26` column (`Trading.py` line 583). -/
def ema12gtema26col (ema12 ema26 : List ℚ) : List Bool := gtColumn ema12 ema26

/-- `ema12gtema26co` column (`Trading.py` lines 585-586). -/
def ema12gtema26co (ema12 ema26 : List ℚ) : List Bool :=
  coColumn (ema12gtema26col ema12 ema26)

/-- `ema12ltema26` column (`Trading.py` line 589). -/
def ema12ltema26col (ema12 ema26 : List ℚ) : List Bool := ltColumn ema12 ema26

/-- `ema12ltema26co` column (`Trading.py` lines 591-592). -/
def ema12ltema26co (ema12 ema26 : List ℚ) : List Bool :=
  coColumn (ema12ltema26col ema12 ema26)

/-- `macdgtsignal` column (`Trading.py` line 640). -/
def macdgtsignalcol (macd signal : List ℚ) : List Bool := gtColumn macd signal

/-- `macdgtsignalco` column (`Trading.py` lines 642-643). -/
def macdgtsignalco (macd signal : List ℚ) : List Bool :=
  coColumn (macdgtsignalcol macd signal)

/-- `macdltsignal` column (`Trading.py` line 646). -/
def macdltsignalcol (macd signal : List ℚ) : List Bool := ltColumn macd signal

/-- `macdltsignalco` column (`Trading.py` lines 648-649). -/
def macdltsignalco (macd signal : List ℚ) : List Bool :=
  coColumn (macdltsignalcol macd signal)

/-- `sma50gtsma200co` column (`Trading.py` lines 612-615). -/
def sma50gtsma200co (sma50 sma200 : List ℚ) : List Bool :=
  coColumn (gtColumn sma50 sma200)

/-- `sma50ltsma200co` column (`Trading.py` lines 618-621). -/
def sma50ltsma200co (sma50 sma200 : List ℚ) : List Bool :=
  coColumn (ltColumn sma50 sma200)

/-! ## Trading.py — `getFibonacciRetracementLevels`

`src/models/Trading.py` lines 651-721.  The Python dict is modelled as an
insertion-ordered association list; assignment to an existing key updates
it in place, assignment to a fresh key appends. -/

/-- Python dict assignment `d[k] = v` on an insertion-ordered
association list. -/
def dinsert (l : List (String × ℚ)) (k : String) (v : ℚ) : List (String × ℚ) :=
  if l.any (fun p => p.1 == k) then
    l.map (fun p => if p.1 == k then (k, v) else p)
  else l ++ [(k, v)]

/-- One `if price != 0 and (band) ... elif price == 0 ...` block of
`getFibonacciRetracementLevels`: when the band condition holds, perform
the block's dict assignments in order; in the `price == 0` sweep perform
the single assignment; otherwise leave the dict unchanged. -/
def fibBlock (c : Prop) [Decidable c] (kvs : List (String × ℚ)) (pz : Prop)
    [Decidable pz] (kv0 : String × ℚ) (d : List (String × ℚ)) :
    List (String × ℚ) :=
  if c then kvs.foldl (fun a p => dinsert a p.1 p.2) d
  else if pz then dinsert d kv0.1 kv0.2
  else d

/-- The body of `getFibonacciRetracementLevels` as a function of the
series' close minimum, close maximum and the reference price
(`Trading.py` lines 656-721).  Each `fibBlock` transcribes one
`if/elif` block, in source order; note that the block for the band
`[max + 0.272·diff, max + 0.414·diff)` (source lines 710-712) assigns
`ratio1_272 = truncate(price_max, 2)`, not the scaled level. -/
def fibLevels (pm pM price : ℚ) : List (String × ℚ) :=
  let diff := pM - pm
  let d1 := fibBlock (price ≠ 0 ∧ price ≤ pm)
    [("ratio1", trunc2 pm)]
    (price = 0) ("ratio1", trunc2 pm) []
  let d2 := fibBlock (price ≠ 0 ∧ price > pm ∧ price ≤ pM - 768/1000 * diff)
    [("ratio1", trunc2 pm), ("ratio0_768", trunc2 (pM - 768/1000 * diff))]
    (price = 0) ("ratio0_768", trunc2 (pM - 768/1000 * diff)) d1
  let d3 := fibBlock
    (price ≠ 0 ∧ price > pM - 768/1000 * diff ∧ price ≤ pM - 618/1000 * diff)
    [("ratio0_768", trunc2 (pM - 768/1000 * diff)),
     ("ratio0_618", trunc2 (pM - 618/1000 * diff))]
    (price = 0) ("ratio0_618", trunc2 (pM - 618/1000 * diff)) d2
  let d4 := fibBlock
    (price ≠ 0 ∧ price > pM - 618/1000 * diff ∧ price ≤ pM - 5/10 * diff)
    [("ratio0_618", trunc2 (pM - 618/1000 * diff)),
     ("ratio0_5", trunc2 (pM - 5/10 * diff))]
    (price = 0) ("ratio0_5", trunc2 (pM - 5/10 * diff)) d3
  let d5 := fibBlock
    (price ≠ 0 ∧ price > pM - 5/10 * diff ∧ price ≤ pM - 382/1000 * diff)
    [("ratio0_5", trunc2 (pM - 5/10 * diff)),
     ("ratio0_382", trunc2 (pM - 382/1000 * diff))]
    (price = 0) ("ratio0_382", trunc2 (pM - 382/1000 * diff)) d4
  let d6 := fibBlock
    (price ≠ 0 ∧ price > pM - 382/1000 * diff ∧ price ≤ pM - 286/1000 * diff)
    [("ratio0_382", trunc2 (pM - 382/1000 * diff)),
     ("ratio0_286", trunc2 (pM - 286/1000 * diff))]
    (price = 0) ("ratio0_286", trunc2 (pM - 286/1000 * diff)) d5
  let d7 := fibBlock
    (price ≠ 0 ∧ price > pM - 286/1000 * diff ∧ price ≤ pM)
    [("ratio0_286", trunc2 (pM - 286/1000 * diff)), ("ratio0", trunc2 pM)]
    (price = 0) ("ratio0", trunc2 pM) d6
  let d8 := fibBlock
    (price ≠ 0 ∧ price < pM + 272/1000 * diff ∧ price ≥ pM)
    [("ratio0", trunc2 pM), ("ratio1_272", trunc2 (pM + 272/1000 * diff))]
    (price = 0) ("ratio1_272", trunc2 (pM + 272/1000 * diff)) d7
  let d9 := fibBlock
    (price ≠ 0 ∧ price < pM + 414/1000 * diff ∧ price ≥ pM + 272/1000 * diff)
    [("ratio1_272", trunc2 pM), ("ratio1_414", trunc2 (pM + 414/1000 * diff))]
    (price = 0) ("ratio1_414", trunc2 (pM + 414/1000 * diff)) d8
  fibBlock
    (price ≠ 0 ∧ price < pM + 618/1000 * diff ∧ price ≥ pM + 414/1000 * diff)
    [("ratio1_618", trunc2 (pM + 618/1000 * diff))]
    (price = 0) ("ratio1_618", trunc2 (pM + 618/1000 * diff)) d9

/-- Minimum of a close series (`df.close.min()`); `0` on an empty series,
which the callers exclude. -/
def listMin : List ℚ → ℚ
  | [] => 0
  | x :: xs => xs.foldl min x

/-- Maximum of a close series (`df.close.max()`); `0` on an empty series,
which the callers exclude. -/
def listMax : List ℚ → ℚ
  | [] => 0
  | x :: xs => xs.foldl max x

/-- `getFibonacciRetracementLevels(price)` on a series with the given
close column (`Trading.py` lines 651-721). -/
def getFibonacciRetracementLevels (closes : List ℚ) (price : ℚ) :
    List (String × ℚ) :=
  fibLevels (listMin closes) (listMax closes) price

/-! ## pycryptobot.py — the inline `executeJob` trading core

The decision pipeline of `src/pycryptobot.py` (`executeJob`): primary
signals (lines 233-257), buy-near-high veto (259-265), the position
guard with margin accounting and exit triggers (267-401), the BUY/SELL
dispatch with ledger counters (710-905) and the simulation summary
(909-929).  Only the non-live (`app.isLive() == 0`) order branches are
embedded; the claims under proof are about test/simulation runs. -/

/-- `state.action`: the decision in progress (`'BUY' | 'SELL' | 'WAIT'`). -/
inductive Act
  | buy
  | sell
  | wait
deriving DecidableEq, Repr

/-- `state.last_action`: `''` (never traded), `'BUY'` or `'SELL'`. -/
inductive LastAct
  | start
  | buy
  | sell
deriving DecidableEq, Repr

/-- The indicator values `executeJob` extracts from `df_last`
(lines 200-212); `goldencross` already carries the simulation ramp-up
override of line 215-216. -/
structure IndRow where
  ema12gtema26 : Bool
  ema12gtema26co : Bool
  goldencross : Bool
  macdgtsignal : Bool
  macdgtsignalco : Bool
  ema12ltema26co : Bool
  macdltsignal : Bool
  obv_pc : ℚ
  eri_buy : Bool
deriving DecidableEq, Repr

/-- The configuration read by the inline `executeJob` core. -/
structure InlineCfg where
  is_live : Bool
  sellpercent : ℚ
  takerfee : ℚ
  sell_at_loss : Bool
  sellatresistance : Bool
  disablebuymacd : Bool
  disablebullonly : Bool
  disablebuyobv : Bool
  disablebuyelderray : Bool
  disablebuynearhigh : Bool
  disablefailsafefibonaccilow : Bool
  disablefailsafelowerpcnt : Bool
  disableprofitbankupperpcnt : Bool
  disableprofitbankreversal : Bool
  sell_upper_pcnt : Option ℚ
  sell_lower_pcnt : Option ℚ
  trailing_stop_loss : Option ℚ
deriving DecidableEq, Repr

/-- The mutable position / ledger state of the inline loop (`AppState`
fields touched by `executeJob`). -/
structure SimState where
  action : Act
  last_action : LastAct
  last_buy_price : ℚ
  last_buy_size : ℚ
  last_buy_filled : ℚ
  last_buy_fee : ℚ
  last_buy_high : ℚ
  fib_low : ℚ
  fib_high : ℚ
  buy_count : ℕ
  sell_count : ℕ
  buy_sum : ℚ
  sell_sum : ℚ
deriving DecidableEq, Repr

/-- The all-zero starting `AppState` of a simulation run
(`state = AppState()` with `last_action = ''`). -/
def initialSimState : SimState :=
  { action := .wait, last_action := .start, last_buy_price := 0,
    last_buy_size := 0, last_buy_filled := 0, last_buy_fee := 0,
    last_buy_high := 0, fib_low := 0, fib_high := 0,
    buy_count := 0, sell_count := 0, buy_sum := 0, sell_sum := 0 }

/-- Primary buy/sell signal criteria (`pycryptobot.py` lines 233-257). -/
def signalAction (cfg : InlineCfg) (row : IndRow) (last : LastAct) : Act :=
  if row.ema12gtema26co = true ∧ (row.macdgtsignal = true ∨ cfg.disablebuymacd = true)
      ∧ (row.goldencross = true ∨ cfg.disablebullonly = true)
      ∧ (row.obv_pc > -5 ∨ cfg.disablebuyobv = true)
      ∧ (row.eri_buy = true ∨ cfg.disablebuyelderray = true)
      ∧ last ≠ .buy then .buy
  else if row.ema12gtema26 = true ∧ row.macdgtsignalco = true
      ∧ (row.goldencross = true ∨ cfg.disablebullonly = true)
      ∧ (row.obv_pc > -5 ∨ cfg.disablebuyobv = true)
      ∧ (row.eri_buy = true ∨ cfg.disablebuyelderray = true)
      ∧ last ≠ .buy then .buy
  else if row.ema12ltema26co = true
      ∧ (row.macdltsignal = true ∨ cfg.disablebuymacd = true)
      ∧ last = .buy then .sell
  else .wait

/-- Buy-near-high veto of the inline loop (`pycryptobot.py` lines
259-265): a pending BUY is downgraded to WAIT when the price is within a
hard-coded 3% of the frame's close high (`price > close_max * 0.97`). -/
def nearHighVeto (cfg : InlineCfg) (price closeMax : ℚ) (a : Act) : Act :=
  if a = .buy ∧ cfg.disablebuynearhigh = true ∧ price > closeMax * (97/100) then
    .wait
  else a

/-- Simulated fill back-fill (`pycryptobot.py` lines 280-282): in
non-live mode, when `last_buy_filled == 0`, derive the filled amount from
size and price and set the buy fee at the hard-coded `0.005` rate,
rounded to 2 decimals. -/
def recomputeFill (cfg : InlineCfg) (st : SimState) : SimState :=
  if cfg.is_live = false ∧ st.last_buy_filled = 0 then
    let filled := st.last_buy_size / st.last_buy_price
    { st with last_buy_filled := filled,
              last_buy_fee := pyRound (filled * st.last_buy_price * (5/1000)) 2 }
  else st

/-- The position margin of a tick (`pycryptobot.py` lines 289-306):
sell size at `sellpercent`, sell fee at the taker rate rounded to 2
decimals, profit against the fee-adjusted buy value, margin as percent of
the buy size. -/
def tickMargin (cfg : InlineCfg) (st : SimState) (price : ℚ) : ℚ :=
  let sell_size := (cfg.sellpercent / 100) * (price * st.last_buy_filled)
  let sell_fee := pyRound (sell_size * cfg.takerfee) 2
  let sell_filled := sell_size - sell_fee
  let buy_value := st.last_buy_size - st.last_buy_fee
  let profit := sell_filled - buy_value
  (profit / st.last_buy_size) * 100

/-- One exit trigger: on its condition, set `action = 'SELL'`,
re-assert `last_action = 'BUY'` and flag an immediate action, as each
trigger branch of `executeJob` does. -/
def sellStage (c : Prop) [Decidable c] (p : SimState × Bool) : SimState × Bool :=
  if c then ({ p.1 with action := .sell, last_action := .buy }, true) else p

/-- The `if`/`elif` pair of the trailing-stop-loss and lower-failsafe
triggers (`pycryptobot.py` lines 324-350): the second condition is only
consulted when the first fails. -/
def sellStageElif (c1 c2 : Prop) [Decidable c1] [Decidable c2]
    (p : SimState × Bool) : SimState × Bool :=
  if c1 then ({ p.1 with action := .sell, last_action := .buy }, true)
  else if c2 then ({ p.1 with action := .sell, last_action := .buy }, true)
  else p

/-- The no-sell-at-loss downgrade (`pycryptobot.py` lines 380-387): a
pending SELL with `margin <= 0` and sell-at-loss disabled becomes WAIT
and clears the immediate flag. -/
def noSellAtLossStage (c : Prop) [Decidable c] (p : SimState × Bool) :
    SimState × Bool :=
  if p.1.action = .sell ∧ c then
    ({ p.1 with action := .wait, last_action := .buy }, false)
  else p

/-- The buy-high watermark update (`pycryptobot.py` lines 270-272). -/
def buyHighUpdate (price : ℚ) (st : SimState) : SimState :=
  { st with last_buy_high :=
      if price > st.last_buy_high then price else st.last_buy_high }

/-- `change_pcnt_high` (`pycryptobot.py` lines 274-277): percent change
from the buy-high watermark, zero when the watermark is at most 1. -/
def changePcntHigh (price : ℚ) (st : SimState) : ℚ :=
  if st.last_buy_high > 1 then (price / st.last_buy_high - 1) * 100 else 0

/-- The exit-trigger chain (`pycryptobot.py` lines 310-401), applied to
the post-back-fill state `st2`: fibonacci floor, trailing stop loss
`elif` lower failsafe, upper profit bank, strong reversal, the
no-sell-at-loss downgrade, and sell-at-resistance — in source order,
innermost first. -/
def triggerChain (cfg : InlineCfg) (row : IndRow)
    (price tradeExit margin change_pcnt_high : ℚ) (st2 : SimState) :
    SimState × Bool :=
  sellStage (cfg.sellatresistance = true ∧ margin > 1 ∧ price > 0
      ∧ price ≠ tradeExit)
    (noSellAtLossStage (cfg.sell_at_loss = false ∧ margin ≤ 0)
      (sellStage (cfg.disableprofitbankreversal = false ∧ margin > 3
          ∧ row.obv_pc < 0 ∧ row.macdltsignal = true)
        (sellStage (cfg.disableprofitbankupperpcnt = false
            ∧ cfg.sell_upper_pcnt ≠ none ∧ margin > cfg.sell_upper_pcnt.getD 0)
          (sellStageElif
            (cfg.sell_at_loss = true ∧ cfg.trailing_stop_loss ≠ none
              ∧ change_pcnt_high < cfg.trailing_stop_loss.getD 0)
            (cfg.disablefailsafelowerpcnt = false ∧ cfg.sell_at_loss = true
              ∧ cfg.sell_lower_pcnt ≠ none
              ∧ margin < cfg.sell_lower_pcnt.getD 0)
            (sellStage (cfg.disablefailsafefibonaccilow = false
                ∧ cfg.sell_at_loss = true ∧ cfg.sell_lower_pcnt = none
                ∧ st2.fib_low > 0 ∧ st2.fib_low ≥ price)
              (st2, false))))))

/-- The position guard with margin accounting and exit triggers
(`pycryptobot.py` lines 267-401).  Inside the guard: update the buy high
watermark, derive `change_pcnt_high`, back-fill the simulated fill,
compute the margin, then run the trigger chain. -/
def triggerBlock (cfg : InlineCfg) (row : IndRow) (price tradeExit : ℚ)
    (st : SimState) : SimState × Bool :=
  if st.last_buy_size > 0 ∧ st.last_buy_price > 0 ∧ price > 0
      ∧ st.last_action = .buy then
    triggerChain cfg row price tradeExit
      (tickMargin cfg (recomputeFill cfg (buyHighUpdate price st)) price)
      (changePcntHigh price (buyHighUpdate price st))
      (recomputeFill cfg (buyHighUpdate price st))
  else (st, false)

/-- The BUY dispatch in test mode (`pycryptobot.py` lines 711-718 and
749-753): seed buy price and high, advance the buy counter and the
fee-inclusive buy sum, and set the dummy buy size of 1000. -/
def simBuyUpdate (cfg : InlineCfg) (price : ℚ) (st : SimState) : SimState :=
  { st with last_buy_price := price,
            last_buy_high := price,
            buy_count := st.buy_count + 1,
            buy_sum := st.buy_sum + (price + price * cfg.takerfee),
            last_buy_size := 1000 }

/-- The post-BUY Fibonacci band update (`pycryptobot.py` lines 763-779):
from the retracement dict, one entry seeds `fib_low` (with the
`ratio1` / `ratio1_618` special cases, noting the second `if` is not an
`elif` so the `ratio1` case falls through to the final `else`), two
entries seed the surrounding band. -/
def fibUpdateFromBands (bands : List (String × ℚ)) (st : SimState) : SimState :=
  if 1 ≤ bands.length ∧ bands.length ≤ 2 then
    if bands.length = 1 then
      let fk := (bands.headD ("", 0)).1
      let v := (bands.headD ("", 0)).2
      let st1 := if fk = "ratio1" then { st with fib_low := 0, fib_high := v }
                 else st
      if fk = "ratio1_618" then { st1 with fib_low := v, fib_high := 2 * v }
      else { st1 with fib_low := v }
    else
      { st with fib_low := (bands.headD ("", 0)).2,
                fib_high := ((bands.drop 1).headD ("", 0)).2 }
  else st

/-- The post-SELL state reset (`pycryptobot.py` lines 897-901):
`last_buy_price`, `last_buy_size` and `last_buy_high` are zeroed
(`last_buy_price` twice in the source); every other field is left as it
was — in particular `last_buy_filled` and `last_buy_fee`. -/
def sellReset (st : SimState) : SimState :=
  { st with last_buy_price := 0, last_buy_size := 0, last_buy_high := 0 }

/-- The SELL dispatch in test mode (`pycryptobot.py` lines 793-797 and
897-901): advance the sell counter and the fee-deducted sell sum, then
apply the post-SELL reset. -/
def simSellUpdate (cfg : InlineCfg) (price : ℚ) (st : SimState) : SimState :=
  sellReset { st with sell_count := st.sell_count + 1,
                      sell_sum := st.sell_sum + (price - price * cfg.takerfee) }

/-- The per-tick inputs of the simulated loop: the indicator row of the
current candle, its close price, the frame's close column (for the
near-high veto and the retracement bands) and the `getTradeExit` value
consulted by the resistance trigger. -/
structure TickInput where
  row : IndRow
  price : ℚ
  closes : List ℚ
  tradeExit : ℚ
deriving DecidableEq, Repr

/-- The action dispatch of a simulated tick (`pycryptobot.py` lines
710-905): the BUY branch with its post-buy Fibonacci band update, the
SELL branch with its ledger update and reset, and the `last_action`
update of lines 904-905. -/
def dispatchTick (cfg : InlineCfg) (inp : TickInput) (st2 : SimState) :
    SimState :=
  let st3 :=
    if st2.action = .buy then
      fibUpdateFromBands (getFibonacciRetracementLevels inp.closes inp.price)
        (simBuyUpdate cfg inp.price st2)
    else if st2.action = .sell then simSellUpdate cfg inp.price st2
    else st2
  { st3 with last_action :=
      if st3.action = .buy then .buy
      else if st3.action = .sell then .sell
      else st3.last_action }

/-- One simulated tick of `executeJob`: signals, veto, trigger chain,
then the dispatch. -/
def executeTick (cfg : InlineCfg) (inp : TickInput) (st : SimState) : SimState :=
  dispatchTick cfg inp
    ((triggerBlock cfg inp.row inp.price inp.tradeExit
      { st with action := (nearHighVeto cfg inp.price (listMax inp.closes)
          (signalAction cfg inp.row st.last_action)) }).1)

/-- A simulation run: fold the tick over the pre-loaded window. -/
def runSim (cfg : InlineCfg) (inputs : List TickInput) (st : SimState) :
    SimState :=
  inputs.foldl (fun s i => executeTick cfg i s) st

/-- The end-of-window summary adjustment (`pycryptobot.py` lines
909-916): with an open trade (`buy_count > sell_count`) and sell-at-loss
enabled, a synthetic closing sell at the last price (minus fees) is added
to the ledger. -/
def simSummary (cfg : InlineCfg) (price : ℚ) (st : SimState) : SimState :=
  if st.buy_count > st.sell_count ∧ cfg.sell_at_loss = true then
    { st with sell_sum := st.sell_sum + (price - price * cfg.takerfee),
              sell_count := st.sell_count + 1 }
  else st

/-- The margin printed by the simulation summary (`pycryptobot.py` line
927): `truncate(((sell_sum - buy_sum) / sell_sum) * 100, 2)` — the
denominator is the sell sum. -/
def printedSummaryMargin (st : SimState) : ℚ :=
  trunc2 ((st.sell_sum - st.buy_sum) / st.sell_sum * 100)

/-- The summary margin as the specification words it ("the sum of sells
minus the sum of buys divided by the sum of buys, times 100").  Stated
from the spec, for comparison with `printedSummaryMargin`. -/
def specSummaryMargin (st : SimState) : ℚ :=
  trunc2 ((st.sell_sum - st.buy_sum) / st.buy_sum * 100)

/-! ## models/Strategy.py — the `Strategy` class

`is_buy_signal` (lines 59-188), `is_sell_trigger` (234-534),
`is_wait_trigger` (536-615) and `check_trailing_buy` (617-682).  The
custom-strategy path is summarised by the `csOverride` flag (the
conjunction `CS_ready and selltriggeroverride and buy_pts >=
sell_override_pts` of lines 250-255); the claims under proof run the
standard strategy, where `CS_ready` is false. -/

/-- The configuration read by the `Strategy` class. -/
structure StratCfg where
  preventloss : Bool
  preventlosstrigger : ℚ
  preventlossmargin : ℚ
  sellatloss : Bool
  nosellminpcnt : Option ℚ
  nosellmaxpcnt : Option ℚ
  dynamic_tsl : Bool
  tsl_trigger_multiplier : Option ℚ
  tsl_multiplier : ℚ
  tsl_max_pcnt : ℚ
  disablefailsafelowerpcnt : Bool
  sell_lower_pcnt : Option ℚ
  disablefailsafefibonaccilow : Bool
  disableprofitbankupperpcnt : Bool
  sell_upper_pcnt : Option ℚ
  sellatresistance : Bool
  csOverride : Bool
  disablebuynearhigh : Bool
  nobuynearhighpcnt : ℚ
  enableinsufficientfundslogging : Bool
  insufficientfunds : Bool
  disablebullonly : Bool
  disablebuyema : Bool
  disablebuymacd : Bool
  disablebuyobv : Bool
  disablebuyelderray : Bool
  trailingbuypcnt : ℚ
  trailingbuyimmediatepcnt : Option ℚ
  trailingimmediatebuy : Bool
deriving DecidableEq, Repr

/-- The `AppState` fields touched by the `Strategy` class. -/
structure StratState where
  action : Act
  last_action : LastAct
  prevent_loss : Bool
  tsl_triggered : Bool
  tsl_trigger : ℚ
  tsl_pcnt : Option ℚ
  tsl_max : Bool
  fib_low : ℚ
  trailing_buy : Bool
  waiting_buy_price : ℚ
  trailing_buy_immediate : Bool
deriving DecidableEq, Repr

/-- `Strategy.is_buy_signal` (`Strategy.py` lines 59-188) with the
standard signals (no custom strategy loaded): the buy-near-high
exclusion — which applies only when `last_action == "SELL"` — then the
funds check, the bull-only gate, the disabled-indicator gate, and the
two buy criteria. -/
def isBuySignal (cfg : StratCfg) (st : StratState) (row : IndRow)
    (price closeMax : ℚ) : Bool :=
  if st.last_action = .sell ∧ cfg.disablebuynearhigh = true
      ∧ price > closeMax * (1 - cfg.nobuynearhighpcnt / 100) then false
  else if cfg.enableinsufficientfundslogging = true
      ∧ cfg.insufficientfunds = true then false
  else if cfg.disablebullonly = false ∧ row.goldencross = false then false
  else if cfg.disablebuyema = true ∧ cfg.disablebuymacd = true then false
  else if (row.ema12gtema26co = true ∨ cfg.disablebuyema = true)
      ∧ (row.macdgtsignal = true ∨ cfg.disablebuymacd = true)
      ∧ (row.obv_pc > -5 ∨ cfg.disablebuyobv = true)
      ∧ (row.eri_buy = true ∨ cfg.disablebuyelderray = true)
      ∧ st.last_action ≠ .buy then true
  else if (row.ema12gtema26co = true ∨ cfg.disablebuyema = true)
      ∧ row.macdgtsignalco = true
      ∧ (row.obv_pc > -5 ∨ cfg.disablebuyobv = true)
      ∧ (row.eri_buy = true ∨ cfg.disablebuyelderray = true)
      ∧ st.last_action ≠ .buy then true
  else false

/-- The trailing-stop-loss state update of `is_sell_trigger`
(`Strategy.py` lines 301-337): the dynamic ratchet (reset, trigger and
percent scaling with `round`, max latch) or the fixed-trigger latch. -/
def tslUpdate (cfg : StratCfg) (st : StratState) (margin : ℚ) : StratState :=
  if st.tsl_pcnt ≠ none then
    if cfg.dynamic_tsl = true then
      let stA :=
        if cfg.tsl_trigger_multiplier ≠ none
            ∧ margin > pyRound0 (st.tsl_trigger * cfg.tsl_trigger_multiplier.getD 0)
            ∧ st.tsl_max = false then
          { st with tsl_triggered := false }
        else st
      if stA.tsl_triggered = false then
        if cfg.tsl_trigger_multiplier ≠ none
            ∧ margin > pyRound0 (stA.tsl_trigger * cfg.tsl_trigger_multiplier.getD 0) then
          let stB := { stA with
            tsl_triggered := true,
            tsl_trigger := pyRound0 (stA.tsl_trigger * cfg.tsl_trigger_multiplier.getD 0),
            tsl_pcnt := some (pyRound (stA.tsl_pcnt.getD 0 * cfg.tsl_multiplier) 1) }
          if stB.tsl_pcnt.getD 0 ≤ cfg.tsl_max_pcnt then
            { stB with tsl_max := true }
          else stB
        else if margin > stA.tsl_trigger then { stA with tsl_triggered := true }
        else stA
      else stA
    else
      if margin > st.tsl_trigger then { st with tsl_triggered := true } else st
  else st

/-- The tail of `is_sell_trigger` after the prevent-loss block
(`Strategy.py` lines 282-534): the sell-at-loss and no-sell-bounds
early exits, the trailing-stop-loss update and fire, the lower
failsafe, the fibonacci-band failsafe, the upper profit bank and the
sell-at-resistance trigger. -/
def isSellTriggerRest (cfg : StratCfg) (st : StratState)
    (price price_exit margin change_pcnt_high : ℚ) : StratState × Bool :=
  if cfg.sellatloss = false ∧ margin ≤ 0 then (st, false)
  else if (cfg.nosellminpcnt ≠ none ∧ margin ≥ cfg.nosellminpcnt.getD 0)
      ∧ (cfg.nosellmaxpcnt ≠ none ∧ margin ≤ cfg.nosellmaxpcnt.getD 0) then
    (st, false)
  else
    let st1 := tslUpdate cfg st margin
    if st1.tsl_pcnt ≠ none ∧ st1.tsl_triggered = true
        ∧ change_pcnt_high < st1.tsl_pcnt.getD 0 then (st1, true)
    else if cfg.disablefailsafelowerpcnt = false ∧ cfg.sellatloss = true
        ∧ cfg.sell_lower_pcnt ≠ none
        ∧ margin < cfg.sell_lower_pcnt.getD 0 then (st1, true)
    else if cfg.disablefailsafefibonaccilow = false ∧ cfg.sellatloss = true
        ∧ cfg.sell_lower_pcnt = none ∧ st1.fib_low > 0
        ∧ st1.fib_low ≥ price then (st1, true)
    else if cfg.disableprofitbankupperpcnt = false ∧ cfg.sell_upper_pcnt ≠ none
        ∧ margin > cfg.sell_upper_pcnt.getD 0 then (st1, true)
    else if cfg.sellatresistance = true ∧ margin ≥ 2 ∧ price > 0
        ∧ price ≥ price_exit
        ∧ (cfg.sellatloss = true ∨ margin > 0) then (st1, true)
    else (st1, false)

/-- `Strategy.is_sell_trigger` (`Strategy.py` lines 234-534): the
custom-strategy override, then the prevent-loss two-phase block —
`if` the latch transition (no sell on that same call), `elif` the fire
condition `(prevent_loss and margin <= preventlossmargin) or
(preventlosstrigger == 0 and margin <= preventlossmargin)` — then the
remaining exit triggers. -/
def isSellTrigger (cfg : StratCfg) (st : StratState)
    (price price_exit margin change_pcnt_high : ℚ) : StratState × Bool :=
  if cfg.csOverride = true then (st, false)
  else if cfg.preventloss = true ∧ st.prevent_loss = false
      ∧ margin > cfg.preventlosstrigger then
    isSellTriggerRest cfg { st with prevent_loss := true }
      price price_exit margin change_pcnt_high
  else if cfg.preventloss = true
      ∧ ((st.prevent_loss = true ∧ margin ≤ cfg.preventlossmargin)
        ∨ (cfg.preventlosstrigger = 0 ∧ margin ≤ cfg.preventlossmargin)) then
    (st, true)
  else isSellTriggerRest cfg st price price_exit margin change_pcnt_high

/-- `Strategy.is_wait_trigger` (`Strategy.py` lines 536-615): an active
prevent-loss exempts the pending action from every downgrade; then the
bull-only buy abort, the no-sell-at-loss downgrade and the no-sell-bounds
downgrade. -/
def isWaitTrigger (cfg : StratCfg) (st : StratState) (margin : ℚ)
    (goldencross : Bool) : Bool :=
  if (st.prevent_loss = true ∧ margin ≤ cfg.preventlossmargin)
      ∨ (cfg.preventlosstrigger = 0 ∧ margin ≤ cfg.preventlossmargin) then false
  else if st.action = .buy ∧ cfg.disablebullonly = false
      ∧ goldencross = false then true
  else if st.action = .sell ∧ cfg.sellatloss = false ∧ margin ≤ 0 then true
  else if st.action = .sell
      ∧ (cfg.nosellminpcnt ≠ none ∧ margin ≥ cfg.nosellminpcnt.getD 0)
      ∧ (cfg.nosellmaxpcnt ≠ none ∧ margin ≤ cfg.nosellmaxpcnt.getD 0) then true
  else false

/-- The branch body shared by both entries of `check_trailing_buy`
(`Strategy.py` lines 638-670): reset the wait price on a price decrease,
the immediate-buy branch, the fluctuation-band wait, or confirm the buy
at candle close. -/
def trailingBuyBranch (cfg : StratCfg) (st : StratState)
    (price pricechange : ℚ) : StratState × Bool :=
  if price < st.waiting_buy_price then
    ({ st with waiting_buy_price := price, action := .wait }, false)
  else if cfg.trailingbuyimmediatepcnt ≠ none
      ∧ (st.trailing_buy_immediate = true ∨ cfg.trailingimmediatebuy = true)
      ∧ pricechange > cfg.trailingbuyimmediatepcnt.getD 0 then
    ({ st with action := .buy }, true)
  else if pricechange < cfg.trailingbuypcnt * (9/10) then
    ({ st with action := .wait }, false)
  else ({ st with action := .buy }, false)

/-- `Strategy.check_trailing_buy` (`Strategy.py` lines 617-682): while
armed (`trailing_buy` and a positive wait price) the price change is the
truncated signed percent against the wait price; otherwise the machine is
seeded with the current price.  Returns the updated state and the
immediate-action flag. -/
def checkTrailingBuy (cfg : StratCfg) (st : StratState) (price : ℚ) :
    StratState × Bool :=
  if st.trailing_buy = true ∧ st.waiting_buy_price > 0 then
    let pricechange :=
      pyTrunc ((st.waiting_buy_price - price) / st.waiting_buy_price * (-100)) 2
    trailingBuyBranch cfg st price pricechange
  else
    trailingBuyBranch cfg
      { st with waiting_buy_price := price, trailing_buy := true } price 0

/-- A run of `check_trailing_buy` over successive tick prices, keeping
only the state. -/
def runTrailingBuy (cfg : StratCfg) (st : StratState) (prices : List ℚ) :
    StratState :=
  prices.foldl (fun s p => (checkTrailingBuy cfg s p).1) st

/-! ## models/PyCryptoBot.py — the higher-timeframe bull predicates

`is1hEMA1226Bull` (lines 672-697) and `is6hEMA1226Bull` (lines 754-779).
Each wraps its whole body in `try/except Exception: return False`, and
each computes a local `df_last` with a `bull` column but then returns
`bool(self.df_last["bull"])` — an attribute of the bot object that no
code in the repository ever assigns.  The attribute is modelled as an
`Option`: `none` (always, in the repository as shipped) raises
`AttributeError`, which the `except` maps to `False`. -/

/-- The observable inputs of a bull-predicate call: whether the data
acquisition steps complete without raising, the locally computed
`ema12 > ema26` value (per timeframe), and the `bull` value of the
`self.df_last` attribute when it exists. -/
structure BullBot where
  fetchOk1h : Bool
  fetchOk6h : Bool
  localBull1h : Bool
  localBull6h : Bool
  dfLastBull : Option Bool
deriving DecidableEq, Repr

/-- `PyCryptoBot.is1hEMA1226Bull` (`PyCryptoBot.py` lines 672-697): the
try body fetches 1h data, computes the local `df_last["bull"]`
(`localBull1h`, unused by the return), and returns
`bool(self.df_last["bull"])`; any exception — including the
`AttributeError` from the unset `self.df_last` — yields `False`. -/
def is1hEMA1226Bull (bot : BullBot) : Bool :=
  if bot.fetchOk1h = false then false
  else
    match bot.dfLastBull with
    | none => false
    | some b => b

/-- `PyCryptoBot.is6hEMA1226Bull` (`PyCryptoBot.py` lines 754-779):
same shape as the 1h predicate on the 6h cache. -/
def is6hEMA1226Bull (bot : BullBot) : Bool :=
  if bot.fetchOk6h = false then false
  else
    match bot.dfLastBull with
    | none => false
    | some b => b

/-- The smart-switch condition of `executeJob` (`pycryptobot.py` lines
120 and 132): switch from 1h to 15m only when both higher-timeframe bull
predicates return true. -/
def smartSwitchDown (smartSwitch granIs1h : Bool) (bot : BullBot) : Bool :=
  smartSwitch && granIs1h && is1hEMA1226Bull bot && is6hEMA1226Bull bot

/-- The margin the simulated tick computes for a position opened at
price `P1` with quote size `Q` (fresh fill: `last_buy_filled = 0`) and
evaluated at price `P2`, with taker fee `f` and `sell_percent = 100`, in
non-live mode — the composition of `recomputeFill` (lines 280-282) and
the margin calculation (lines 289-306 / 857-874). -/
def simImmediateMargin (P1 P2 Q f : ℚ) : ℚ :=
  let cfg : InlineCfg :=
    { is_live := false, sellpercent := 100, takerfee := f,
      sell_at_loss := true, sellatresistance := false,
      disablebuymacd := false, disablebullonly := false,
      disablebuyobv := false, disablebuyelderray := false,
      disablebuynearhigh := false, disablefailsafefibonaccilow := true,
      disablefailsafelowerpcnt := true, disableprofitbankupperpcnt := true,
      disableprofitbankreversal := true, sell_upper_pcnt := none,
      sell_lower_pcnt := none, trailing_stop_loss := none }
  let st : SimState := { initialSimState with
    last_buy_size := Q, last_buy_price := P1, last_action := .buy }
  tickMargin cfg (recomputeFill cfg st) P2

/-- The margin value the guard of the exit-trigger chain computes on a
tick: the tick's margin after the simulated fill back-fill.  The buy-high
update that precedes it in the source does not enter the calculation. -/
def inlineMargin (cfg : InlineCfg) (st : SimState) (price : ℚ) : ℚ :=
  tickMargin cfg (recomputeFill cfg st) price

/-- The ledger invariant of the inline loop: the buy counter leads the
sell counter by exactly the open position. -/
def countInv (st : SimState) : Prop :=
  st.buy_count = st.sell_count + (if st.last_action = .buy then 1 else 0)

/-- An indicator row that fires buy criterion 1 of the inline loop. -/
def rowBuy : IndRow :=
  { ema12gtema26 := true, ema12gtema26co := true, goldencross := true,
    macdgtsignal := true, macdgtsignalco := false, ema12ltema26co := false,
    macdltsignal := false, obv_pc := 0, eri_buy := true }

/-- An indicator row that fires the inline sell criterion. -/
def rowSell : IndRow :=
  { ema12gtema26 := false, ema12gtema26co := false, goldencross := true,
    macdgtsignal := false, macdgtsignalco := false, ema12ltema26co := true,
    macdltsignal := true, obv_pc := 0, eri_buy := false }

/-- A plain non-live configuration with Coinbase Pro simulation fees and
every optional exit trigger at its default. -/
def cfgC1 : InlineCfg :=
  { is_live := false, sellpercent := 100, takerfee := 5/1000,
    sell_at_loss := true, sellatresistance := false,
    disablebuymacd := false, disablebullonly := false,
    disablebuyobv := false, disablebuyelderray := false,
    disablebuynearhigh := false, disablefailsafefibonaccilow := false,
    disablefailsafelowerpcnt := false, disableprofitbankupperpcnt := false,
    disableprofitbankreversal := false, sell_upper_pcnt := none,
    sell_lower_pcnt := none, trailing_stop_loss := none }

/-- Tick 1 of the concrete two-tick run: a buy signal at price 100. -/
def tickC1a : TickInput :=
  { row := rowBuy, price := 100, closes := [100, 200], tradeExit := 0 }

/-- Tick 2 of the concrete two-tick run: a sell signal at price 200. -/
def tickC1b : TickInput :=
  { row := rowSell, price := 200, closes := [100, 200], tradeExit := 0 }

/-- The state after tick 1 of the concrete run: long at 100 with the
dummy size of 1000 and the fee-inclusive buy sum. -/
def stC1Mid : SimState :=
  { action := .buy, last_action := .buy, last_buy_price := 100,
    last_buy_size := 1000, last_buy_filled := 0, last_buy_fee := 0,
    last_buy_high := 100, fib_low := 100, fib_high := 100,
    buy_count := 1, sell_count := 0, buy_sum := 201/2, sell_sum := 0 }

/-- The state after tick 2 of the concrete run: position closed, ledger
holding one buy (sum 100.5) and one sell (sum 199); the fill and fee of
the closed position survive the reset. -/
def stC1Final : SimState :=
  { action := .sell, last_action := .sell, last_buy_price := 0,
    last_buy_size := 0, last_buy_filled := 10, last_buy_fee := 5,
    last_buy_high := 0, fib_low := 100, fib_high := 100,
    buy_count := 1, sell_count := 1, buy_sum := 201/2, sell_sum := 199 }

/-- Tick 2, after the sell signal: the pending SELL decision. -/
def stC1Sell : SimState := { stC1Mid with action := .sell }

/-- Tick 2, inside the position guard: high watermark raised to 200 and
the simulated fill back-filled (10 units, fee 5). -/
def stC1T : SimState :=
  { stC1Mid with
      action := .sell
      last_buy_high := 200
      last_buy_filled := 10
      last_buy_fee := 5 }

/-- A `Strategy` configuration with prevent-loss enabled at trigger 0 and
margin set-point 1%, and every other exit trigger at its off/default
setting. -/
def cfgPL : StratCfg :=
  { preventloss := true, preventlosstrigger := 0, preventlossmargin := 1,
    sellatloss := true, nosellminpcnt := none, nosellmaxpcnt := none,
    dynamic_tsl := false, tsl_trigger_multiplier := none,
    tsl_multiplier := 1, tsl_max_pcnt := 0,
    disablefailsafelowerpcnt := true, sell_lower_pcnt := none,
    disablefailsafefibonaccilow := true, disableprofitbankupperpcnt := true,
    sell_upper_pcnt := none, sellatresistance := false, csOverride := false,
    disablebuynearhigh := false, nobuynearhighpcnt := 3,
    enableinsufficientfundslogging := false, insufficientfunds := false,
    disablebullonly := false, disablebuyema := false, disablebuymacd := false,
    disablebuyobv := false, disablebuyelderray := false,
    trailingbuypcnt := 0, trailingbuyimmediatepcnt := none,
    trailingimmediatebuy := false }

/-- A long position's strategy state with no latch set and no trailing
stop armed. -/
def stPL : StratState :=
  { action := .wait, last_action := .buy, prevent_loss := false,
    tsl_triggered := false, tsl_trigger := 0, tsl_pcnt := none,
    tsl_max := false, fib_low := 0, trailing_buy := false,
    waiting_buy_price := 0, trailing_buy_immediate := false }

/-- An armed trailing-buy state waiting at price 100. -/
def stTB : StratState :=
  { stPL with trailing_buy := true, waiting_buy_price := 100 }

/-- A bot whose data acquisition succeeds and whose local bull columns
are both true, with the `self.df_last` attribute unset. -/
def botC9 : BullBot :=
  { fetchOk1h := true, fetchOk6h := true, localBull1h := true,
    localBull6h := true, dfLastBull := none }

/-! ## Helper lemmas: the exit-trigger stages touch only `action`,
`last_action` and the immediate flag -/

theorem sellStage_ledger (c : Prop) [Decidable c] (p : SimState × Bool) :
    (sellStage c p).1.buy_count = p.1.buy_count
    ∧ (sellStage c p).1.sell_count = p.1.sell_count
    ∧ (sellStage c p).1.buy_sum = p.1.buy_sum
    ∧ (sellStage c p).1.sell_sum = p.1.sell_sum := by
  unfold sellStage; split_ifs <;> exact ⟨rfl, rfl, rfl, rfl⟩

theorem sellStage_last_buy (c : Prop) [Decidable c] (p : SimState × Bool)
    (h : p.1.last_action = .buy) : (sellStage c p).1.last_action = .buy := by
  unfold sellStage; split_ifs <;> simpa

theorem sellStage_action_buy (c : Prop) [Decidable c] (p : SimState × Bool)
    (h : (sellStage c p).1.action = .buy) : p.1.action = .buy := by
  unfold sellStage at h; split_ifs at h <;> simp_all

theorem sellStage_neg (c : Prop) [Decidable c] (p : SimState × Bool)
    (h : ¬ c) : sellStage c p = p := by
  unfold sellStage; exact if_neg h

theorem sellStageElif_ledger (c1 c2 : Prop) [Decidable c1] [Decidable c2]
    (p : SimState × Bool) :
    (sellStageElif c1 c2 p).1.buy_count = p.1.buy_count
    ∧ (sellStageElif c1 c2 p).1.sell_count = p.1.sell_count
    ∧ (sellStageElif c1 c2 p).1.buy_sum = p.1.buy_sum
    ∧ (sellStageElif c1 c2 p).1.sell_sum = p.1.sell_sum := by
  unfold sellStageElif; split_ifs <;> exact ⟨rfl, rfl, rfl, rfl⟩

theorem sellStageElif_last_buy (c1 c2 : Prop) [Decidable c1] [Decidable c2]
    (p : SimState × Bool) (h : p.1.last_action = .buy) :
    (sellStageElif c1 c2 p).1.last_action = .buy := by
  unfold sellStageElif; split_ifs <;> simpa

theorem sellStageElif_action_buy (c1 c2 : Prop) [Decidable c1] [Decidable c2]
    (p : SimState × Bool) (h : (sellStageElif c1 c2 p).1.action = .buy) :
    p.1.action = .buy := by
  unfold sellStageElif at h; split_ifs at h <;> simp_all

theorem sellStageElif_neg (c1 c2 : Prop) [Decidable c1] [Decidable c2]
    (p : SimState × Bool) (h1 : ¬ c1) (h2 : ¬ c2) :
    sellStageElif c1 c2 p = p := by
  unfold sellStageElif; rw [if_neg h1, if_neg h2]

theorem noSellAtLossStage_ledger (c : Prop) [Decidable c] (p : SimState × Bool) :
    (noSellAtLossStage c p).1.buy_count = p.1.buy_count
    ∧ (noSellAtLossStage c p).1.sell_count = p.1.sell_count
    ∧ (noSellAtLossStage c p).1.buy_sum = p.1.buy_sum
    ∧ (noSellAtLossStage c p).1.sell_sum = p.1.sell_sum := by
  unfold noSellAtLossStage; split_ifs <;> exact ⟨rfl, rfl, rfl, rfl⟩

theorem noSellAtLossStage_last_buy (c : Prop) [Decidable c]
    (p : SimState × Bool) (h : p.1.last_action = .buy) :
    (noSellAtLossStage c p).1.last_action = .buy := by
  unfold noSellAtLossStage; split_ifs <;> simpa

theorem noSellAtLossStage_action_buy (c : Prop) [Decidable c]
    (p : SimState × Bool) (h : (noSellAtLossStage c p).1.action = .buy) :
    p.1.action = .buy := by
  unfold noSellAtLossStage at h; split_ifs at h <;> simp_all

theorem noSellAtLossStage_not_sell (c : Prop) [Decidable c]
    (p : SimState × Bool) (hc : c) :
    (noSellAtLossStage c p).1.action ≠ .sell := by
  unfold noSellAtLossStage
  by_cases h : p.1.action = .sell
  · rw [if_pos ⟨h, hc⟩]; simp
  · rw [if_neg (by simp [h])]; exact h

theorem recomputeFill_ledger (cfg : InlineCfg) (st : SimState) :
    (recomputeFill cfg st).buy_count = st.buy_count
    ∧ (recomputeFill cfg st).sell_count = st.sell_count
    ∧ (recomputeFill cfg st).buy_sum = st.buy_sum
    ∧ (recomputeFill cfg st).sell_sum = st.sell_sum
    ∧ (recomputeFill cfg st).action = st.action
    ∧ (recomputeFill cfg st).last_action = st.last_action := by
  unfold recomputeFill; split_ifs <;> exact ⟨rfl, rfl, rfl, rfl, rfl, rfl⟩

theorem triggerChain_ledger (cfg : InlineCfg) (row : IndRow)
    (price tradeExit margin change : ℚ) (st2 : SimState) :
    (triggerChain cfg row price tradeExit margin change st2).1.buy_count
        = st2.buy_count
    ∧ (triggerChain cfg row price tradeExit margin change st2).1.sell_count
        = st2.sell_count
    ∧ (triggerChain cfg row price tradeExit margin change st2).1.buy_sum
        = st2.buy_sum
    ∧ (triggerChain cfg row price tradeExit margin change st2).1.sell_sum
        = st2.sell_sum := by
  refine ⟨?_, ?_, ?_, ?_⟩
  · simp only [triggerChain]
    rw [(sellStage_ledger _ _).1, (noSellAtLossStage_ledger _ _).1,
      (sellStage_ledger _ _).1, (sellStage_ledger _ _).1,
      (sellStageElif_ledger _ _ _).1, (sellStage_ledger _ _).1]
  · simp only [triggerChain]
    rw [(sellStage_ledger _ _).2.1, (noSellAtLossStage_ledger _ _).2.1,
      (sellStage_ledger _ _).2.1, (sellStage_ledger _ _).2.1,
      (sellStageElif_ledger _ _ _).2.1, (sellStage_ledger _ _).2.1]
  · simp only [triggerChain]
    rw [(sellStage_ledger _ _).2.2.1, (noSellAtLossStage_ledger _ _).2.2.1,
      (sellStage_ledger _ _).2.2.1, (sellStage_ledger _ _).2.2.1,
      (sellStageElif_ledger _ _ _).2.2.1, (sellStage_ledger _ _).2.2.1]
  · simp only [triggerChain]
    rw [(sellStage_ledger _ _).2.2.2, (noSellAtLossStage_ledger _ _).2.2.2,
      (sellStage_ledger _ _).2.2.2, (sellStage_ledger _ _).2.2.2,
      (sellStageElif_ledger _ _ _).2.2.2, (sellStage_ledger _ _).2.2.2]

theorem triggerChain_last_buy (cfg : InlineCfg) (row : IndRow)
    (price tradeExit margin change : ℚ) (st2 : SimState)
    (h : st2.last_action = .buy) :
    (triggerChain cfg row price tradeExit margin change st2).1.last_action
      = .buy := by
  simp only [triggerChain]
  exact sellStage_last_buy _ _ (noSellAtLossStage_last_buy _ _
    (sellStage_last_buy _ _ (sellStage_last_buy _ _
      (sellStageElif_last_buy _ _ _ (sellStage_last_buy _ _ h)))))

theorem triggerChain_action_buy (cfg : InlineCfg) (row : IndRow)
    (price tradeExit margin change : ℚ) (st2 : SimState)
    (h : (triggerChain cfg row price tradeExit margin change st2).1.action
      = .buy) : st2.action = .buy := by
  simp only [triggerChain] at h
  exact sellStage_action_buy _ _ (sellStageElif_action_buy _ _ _
    (sellStage_action_buy _ _ (sellStage_action_buy _ _
      (noSellAtLossStage_action_buy _ _ (sellStage_action_buy _ _ h)))))

theorem buyHighUpdate_ledger (price : ℚ) (st : SimState) :
    (buyHighUpdate price st).buy_count = st.buy_count
    ∧ (buyHighUpdate price st).sell_count = st.sell_count
    ∧ (buyHighUpdate price st).buy_sum = st.buy_sum
    ∧ (buyHighUpdate price st).sell_sum = st.sell_sum
    ∧ (buyHighUpdate price st).action = st.action
    ∧ (buyHighUpdate price st).last_action = st.last_action :=
  ⟨rfl, rfl, rfl, rfl, rfl, rfl⟩

theorem triggerBlock_ledger (cfg : InlineCfg) (row : IndRow)
    (price tradeExit : ℚ) (st : SimState) :
    (triggerBlock cfg row price tradeExit st).1.buy_count = st.buy_count
    ∧ (triggerBlock cfg row price tradeExit st).1.sell_count = st.sell_count
    ∧ (triggerBlock cfg row price tradeExit st).1.buy_sum = st.buy_sum
    ∧ (triggerBlock cfg row price tradeExit st).1.sell_sum = st.sell_sum
    ∧ (triggerBlock cfg row price tradeExit st).1.last_action = st.last_action
    ∧ ((triggerBlock cfg row price tradeExit st).1.action = .buy
        → st.action = .buy)
    ∧ ((triggerBlock cfg row price tradeExit st).1.action = .sell
        → st.action = .sell ∨ st.last_action = .buy) := by
  unfold triggerBlock
  by_cases hg : (st.last_buy_size > 0 ∧ st.last_buy_price > 0 ∧ price > 0
      ∧ st.last_action = .buy)
  · rw [if_pos hg]
    have hrc := recomputeFill_ledger cfg (buyHighUpdate price st)
    have hbh := buyHighUpdate_ledger price st
    have hch := triggerChain_ledger cfg row price tradeExit
      (tickMargin cfg (recomputeFill cfg (buyHighUpdate price st)) price)
      (changePcntHigh price (buyHighUpdate price st))
      (recomputeFill cfg (buyHighUpdate price st))
    refine ⟨?_, ?_, ?_, ?_, ?_, ?_, ?_⟩
    · rw [hch.1, hrc.1, hbh.1]
    · rw [hch.2.1, hrc.2.1, hbh.2.1]
    · rw [hch.2.2.1, hrc.2.2.1, hbh.2.2.1]
    · rw [hch.2.2.2, hrc.2.2.2.1, hbh.2.2.2.1]
    · rw [triggerChain_last_buy _ _ _ _ _ _ _
        (by rw [hrc.2.2.2.2.2, hbh.2.2.2.2.2]; exact hg.2.2.2), hg.2.2.2]
    · intro h
      have := triggerChain_action_buy _ _ _ _ _ _ _ h
      rw [hrc.2.2.2.2.1, hbh.2.2.2.2.1] at this
      exact this
    · intro _
      exact Or.inr hg.2.2.2
  · rw [if_neg hg]
    exact ⟨rfl, rfl, rfl, rfl, rfl, fun h => h, fun h => Or.inl h⟩

theorem signalAction_buy (cfg : InlineCfg) (row : IndRow) (last : LastAct)
    (h : signalAction cfg row last = .buy) : last ≠ .buy := by
  unfold signalAction at h
  split_ifs at h with h1 h2 h3 <;> simp_all

theorem signalAction_sell (cfg : InlineCfg) (row : IndRow) (last : LastAct)
    (h : signalAction cfg row last = .sell) : last = .buy := by
  unfold signalAction at h
  split_ifs at h with h1 h2 h3 <;> simp_all

theorem nearHighVeto_buy (cfg : InlineCfg) (price closeMax : ℚ) (a : Act)
    (h : nearHighVeto cfg price closeMax a = .buy) : a = .buy := by
  unfold nearHighVeto at h
  split_ifs at h <;> simp_all

theorem nearHighVeto_sell (cfg : InlineCfg) (price closeMax : ℚ) (a : Act)
    (h : nearHighVeto cfg price closeMax a = .sell) : a = .sell := by
  unfold nearHighVeto at h
  split_ifs at h <;> simp_all

theorem fibUpdateFromBands_ledger (bands : List (String × ℚ)) (st : SimState) :
    (fibUpdateFromBands bands st).buy_count = st.buy_count
    ∧ (fibUpdateFromBands bands st).sell_count = st.sell_count
    ∧ (fibUpdateFromBands bands st).action = st.action
    ∧ (fibUpdateFromBands bands st).last_action = st.last_action := by
  simp only [fibUpdateFromBands]
  split_ifs <;> exact ⟨rfl, rfl, rfl, rfl⟩

/-- The ledger invariant transfers across the action dispatch, given the
two alternation facts the decision pipeline guarantees. -/
theorem dispatchTick_countInv (cfg : InlineCfg) (inp : TickInput)
    (st2 : SimState) (hInv : countInv st2)
    (hbuy : st2.action = .buy → st2.last_action ≠ .buy)
    (hsell : st2.action = .sell → st2.last_action = .buy) :
    countInv (dispatchTick cfg inp st2) := by
  unfold countInv at hInv ⊢
  simp only [dispatchTick]
  by_cases hb : st2.action = .buy
  · have hfib := fibUpdateFromBands_ledger
      (getFibonacciRetracementLevels inp.closes inp.price)
      (simBuyUpdate cfg inp.price st2)
    have hact : (fibUpdateFromBands
        (getFibonacciRetracementLevels inp.closes inp.price)
        (simBuyUpdate cfg inp.price st2)).action = Act.buy := by
      rw [hfib.2.2.1]; exact hb
    have hbc : (fibUpdateFromBands
        (getFibonacciRetracementLevels inp.closes inp.price)
        (simBuyUpdate cfg inp.price st2)).buy_count = st2.buy_count + 1 := by
      rw [hfib.1]; rfl
    have hsc : (fibUpdateFromBands
        (getFibonacciRetracementLevels inp.closes inp.price)
        (simBuyUpdate cfg inp.price st2)).sell_count = st2.sell_count := by
      rw [hfib.2.1]; rfl
    simp only [hb, hact, hbc, hsc, reduceIte]
    rw [if_neg (hbuy hb)] at hInv
    omega
  · by_cases hs : st2.action = .sell
    · have hact : (simSellUpdate cfg inp.price st2).action = Act.sell := hs
      have hbc : (simSellUpdate cfg inp.price st2).buy_count
          = st2.buy_count := rfl
      have hsc : (simSellUpdate cfg inp.price st2).sell_count
          = st2.sell_count + 1 := rfl
      have e1 : (Act.sell = Act.buy) = False := by simp
      have e2 : (Act.sell = Act.sell) = True := by simp
      have e3 : (LastAct.sell = LastAct.buy) = False := by simp
      simp only [hs, hact, hbc, hsc, e1, e2, e3, if_true, if_false]
      rw [if_pos (hsell hs)] at hInv
      omega
    · simp only [if_neg hb, if_neg hs]
      exact hInv

/-- The ledger invariant is preserved by a single simulated tick. -/
theorem executeTick_countInv (cfg : InlineCfg) (inp : TickInput)
    (st : SimState) (h : countInv st) : countInv (executeTick cfg inp st) := by
  unfold executeTick
  have htb := triggerBlock_ledger cfg inp.row inp.price inp.tradeExit
    { st with action := (nearHighVeto cfg inp.price (listMax inp.closes)
        (signalAction cfg inp.row st.last_action)) }
  refine dispatchTick_countInv cfg inp _ ?_ ?_ ?_
  · unfold countInv
    rw [htb.1, htb.2.1, htb.2.2.2.2.1]
    exact h
  · intro hb
    have ha1 : nearHighVeto cfg inp.price (listMax inp.closes)
        (signalAction cfg inp.row st.last_action) = .buy := htb.2.2.2.2.2.1 hb
    rw [htb.2.2.2.2.1]
    exact signalAction_buy cfg inp.row st.last_action
      (nearHighVeto_buy _ _ _ _ ha1)
  · intro hs
    rw [htb.2.2.2.2.1]
    rcases htb.2.2.2.2.2.2 hs with hsig | hopen
    · exact signalAction_sell cfg inp.row st.last_action
        (nearHighVeto_sell _ _ _ _ hsig)
    · exact hopen

/-- The ledger invariant holds along any simulated run. -/
theorem runSim_countInv (cfg : InlineCfg) (inputs : List TickInput)
    (st : SimState) (h : countInv st) : countInv (runSim cfg inputs st) := by
  induction inputs generalizing st with
  | nil => exact h
  | cons i rest ih =>
    exact ih (executeTick cfg i st) (executeTick_countInv cfg i st h)

/-! ## Concrete evaluation of the two-tick run -/

theorem tick1C1 : executeTick cfgC1 tickC1a initialSimState = stC1Mid := by
  have hsig : signalAction cfgC1 tickC1a.row initialSimState.last_action
      = Act.buy := by
    norm_num [signalAction, cfgC1, tickC1a, rowBuy, initialSimState]
    decide
  have hveto : nearHighVeto cfgC1 tickC1a.price (listMax tickC1a.closes)
      Act.buy = Act.buy := by
    norm_num [nearHighVeto, cfgC1, tickC1a, listMax]
  have hguard : triggerBlock cfgC1 tickC1a.row tickC1a.price tickC1a.tradeExit
      { initialSimState with action := Act.buy }
      = ({ initialSimState with action := Act.buy }, false) := by
    unfold triggerBlock
    rw [if_neg]
    norm_num [initialSimState]
  have hbands : getFibonacciRetracementLevels [(100 : ℚ), 200] 100
      = [("ratio1", 100)] := by
    norm_num [getFibonacciRetracementLevels, fibLevels, fibBlock, dinsert,
      listMin, listMax, trunc2, pyTrunc]
  unfold executeTick
  rw [hsig, hveto, hguard]
  simp [dispatchTick, simBuyUpdate, hbands, fibUpdateFromBands, cfgC1,
    tickC1a, initialSimState, stC1Mid]
  norm_num

theorem tick2C1 : executeTick cfgC1 tickC1b stC1Mid = stC1Final := by
  have hsig : signalAction cfgC1 tickC1b.row stC1Mid.last_action
      = Act.sell := by
    norm_num [signalAction, cfgC1, tickC1b, rowSell, stC1Mid]
  have hveto : nearHighVeto cfgC1 tickC1b.price (listMax tickC1b.closes)
      Act.sell = Act.sell := by
    norm_num [nearHighVeto, cfgC1, tickC1b, listMax]
  have hrc : recomputeFill cfgC1 (buyHighUpdate tickC1b.price stC1Sell)
      = stC1T := by
    simp [recomputeFill, buyHighUpdate, cfgC1, tickC1b, stC1Sell, stC1Mid,
      stC1T, (by norm_num : (100:ℚ) < 200)]
    norm_num [pyRound, halfEven]
  have hm : tickMargin cfgC1 stC1T tickC1b.price = 199/2 := by
    simp [tickMargin, cfgC1, tickC1b, stC1T, stC1Mid]
    norm_num [pyRound, halfEven]
  have hch : changePcntHigh tickC1b.price
      (buyHighUpdate tickC1b.price stC1Sell) = 0 := by
    simp [changePcntHigh, buyHighUpdate, tickC1b, stC1Sell, stC1Mid,
      (by norm_num : (100:ℚ) < 200), (by norm_num : (200:ℚ) > 1)]
  have hguard : triggerBlock cfgC1 tickC1b.row tickC1b.price tickC1b.tradeExit
      stC1Sell = (stC1T, false) := by
    unfold triggerBlock
    rw [if_pos (by norm_num [stC1Sell, stC1Mid, tickC1b])]
    rw [hrc, hm, hch]
    simp [triggerChain, sellStage, sellStageElif, noSellAtLossStage,
      cfgC1, tickC1b, rowSell, stC1T, stC1Mid,
      (by norm_num : ¬ ((100:ℚ) ≥ 200)), (by norm_num : (199:ℚ)/2 > 3)]
  unfold executeTick
  have hsell : { stC1Mid with action := Act.sell } = stC1Sell := rfl
  rw [hsig, hveto, hsell, hguard]
  simp [dispatchTick, simSellUpdate, sellReset, cfgC1, tickC1b, stC1T,
    stC1Mid, stC1Final]
  norm_num

theorem runC1_eq : runSim cfgC1 [tickC1a, tickC1b] initialSimState
    = stC1Final := by
  simp only [runSim, List.foldl]
  rw [tick1C1, tick2C1]

theorem simSummaryC1_eq : simSummary cfgC1 200 stC1Final = stC1Final := by
  simp [simSummary, stC1Final]

/-- Claim C1 (amended): at the end of a simulation window the printed
compounded margin is `((sell_sum − buy_sum) / sell_sum) · 100` truncated
to 2 decimals — the denominator is the SELL sum, not the buy sum the
claim states — and, with sell-at-loss enabled (the default), the final
`buy_count` equals the final `sell_count` for every input sequence, in
particular for a trivial up-trend window. -/
theorem C1_sim_summary :
    (∀ (cfg : InlineCfg) (inputs : List TickInput) (price : ℚ),
      cfg.sell_at_loss = true →
      (simSummary cfg price (runSim cfg inputs initialSimState)).buy_count
        = (simSummary cfg price (runSim cfg inputs initialSimState)).sell_count)
    ∧ printedSummaryMargin (simSummary cfgC1 200
        (runSim cfgC1 [tickC1a, tickC1b] initialSimState))
      = trunc2 ((199 - 201/2) / 199 * 100) := by
  constructor
  · intro cfg inputs price hc
    have hinv := runSim_countInv cfg inputs initialSimState
      (by simp [countInv, initialSimState])
    set st := runSim cfg inputs initialSimState with hst
    unfold countInv at hinv
    unfold simSummary
    by_cases hl : st.last_action = LastAct.buy
    · rw [if_pos hl] at hinv
      split_ifs with h
      · show st.buy_count = st.sell_count + 1
        omega
      · exact absurd ⟨by omega, hc⟩ h
    · rw [if_neg hl] at hinv
      rw [if_neg (by intro hcon; omega)]
      omega
  · rw [runC1_eq, simSummaryC1_eq]
    norm_num [printedSummaryMargin, stC1Final]

/-- Witness for C1: the count equality instantiated on the concrete
two-tick run. -/
theorem C1_sim_summary_witness :
    (simSummary cfgC1 200
      (runSim cfgC1 [tickC1a, tickC1b] initialSimState)).buy_count
    = (simSummary cfgC1 200
      (runSim cfgC1 [tickC1a, tickC1b] initialSimState)).sell_count :=
  C1_sim_summary.1 cfgC1 [tickC1a, tickC1b] 200 rfl

/-- Counterexample to C1 as stated: on the concrete two-tick run (buy at
100, sell at 200, taker fee 0.005) with at least one sell, the printed
margin is 49.49 while the claim's formula — sells minus buys over the
sum of BUYS — gives 98. -/
theorem C1_sim_summary_counterexample :
    printedSummaryMargin (simSummary cfgC1 200
      (runSim cfgC1 [tickC1a, tickC1b] initialSimState)) = 4949/100
    ∧ specSummaryMargin (simSummary cfgC1 200
      (runSim cfgC1 [tickC1a, tickC1b] initialSimState)) = 98
    ∧ (4949/100 : ℚ) ≠ 98
    ∧ 0 < (simSummary cfgC1 200
      (runSim cfgC1 [tickC1a, tickC1b] initialSimState)).sell_count := by
  rw [runC1_eq, simSummaryC1_eq]
  refine ⟨?_, ?_, by norm_num, by norm_num [stC1Final]⟩
  · norm_num [printedSummaryMargin, stC1Final, trunc2, pyTrunc]
  · norm_num [specSummaryMargin, stC1Final, trunc2, pyTrunc]

/-- Claim C2 (amended): for a simulated position opened at `P1` with
quote size `Q` (fresh fill) and evaluated at `P2` with taker fee `f` and
`sell_percent = 100`, whenever the two fee roundings are exact the tick's
margin is `((P2/P1)·(1−f) − (1 − 0.005))·100` — the simulated BUY fee is
hard-coded at rate `0.005` and is not deducted from the filled amount —
and for `f = 0.005` this is `(1−f)·((P2/P1) − 1)·100`, not the claimed
`((P2/P1)·(1−f)² − 1)·100`. -/
theorem C2_margin_identity (P1 P2 Q f : ℚ) (hP : 0 < P1) (hQ : 0 < Q)
    (hr1 : pyRound (Q * (5/1000)) 2 = Q * (5/1000))
    (hr2 : pyRound ((100:ℚ)/100 * (P2 * (Q / P1)) * f) 2
      = (100:ℚ)/100 * (P2 * (Q / P1)) * f) :
    simImmediateMargin P1 P2 Q f = ((P2/P1) * (1 - f) - (1 - 5/1000)) * 100
    ∧ (f = 5/1000 → simImmediateMargin P1 P2 Q f
        = (1 - f) * ((P2/P1) - 1) * 100) := by
  have hp1 : P1 ≠ 0 := ne_of_gt hP
  have hq : Q ≠ 0 := ne_of_gt hQ
  have e1 : Q / P1 * P1 * (5/1000) = Q * (5/1000) := by
    rw [div_mul_cancel₀ _ hp1]
  have main : simImmediateMargin P1 P2 Q f
      = ((P2/P1) * (1 - f) - (1 - 5/1000)) * 100 := by
    simp only [simImmediateMargin, recomputeFill, tickMargin, initialSimState]
    simp only [and_self, if_true]
    rw [e1, hr1, hr2]
    field_simp
    ring
  refine ⟨main, fun hf => ?_⟩
  rw [main, hf]
  ring

/-- Witness for C2: a buy at 100 of size 1000, evaluated at 110 with the
Coinbase Pro simulation fee 0.005; both roundings are exact and the
margin comes out at 9.95%. -/
theorem C2_margin_identity_witness :
    simImmediateMargin 100 110 1000 (1/200)
      = ((110/100) * (1 - 1/200) - (1 - 5/1000)) * 100
    ∧ simImmediateMargin 100 110 1000 (1/200)
      = (1 - 1/200) * ((110/100 : ℚ) - 1) * 100 := by
  have h := C2_margin_identity 100 110 1000 (1/200) (by norm_num)
    (by norm_num) (by norm_num [pyRound, halfEven])
    (by norm_num [pyRound, halfEven])
  exact ⟨h.1, h.2 (by norm_num)⟩

/-- Counterexample to C2 as stated: at `P1 = P2 = 100`, `Q = 1000`,
`f = 0.005` the tick computes margin 0 while the claimed identity
`((P2/P1)·(1−f)² − 1)·100` gives −0.9975, a gap of 0.9975 — far above
the claimed 1e-6 tolerance. -/
theorem C2_margin_identity_counterexample :
    |simImmediateMargin 100 100 1000 (5/1000)
      - ((100/100) * (1 - 5/1000)^2 - 1) * 100| > 1/1000000 := by
  norm_num [simImmediateMargin, tickMargin, recomputeFill, initialSimState,
    pyRound, halfEven]
  rw [abs_of_pos (by norm_num)]
  norm_num

/-! ## Strategy.is_sell_trigger: prevent-loss behaviour -/

theorem tslUpdate_prevent_loss (cfg : StratCfg) (st : StratState)
    (margin : ℚ) : (tslUpdate cfg st margin).prevent_loss
      = st.prevent_loss := by
  simp only [tslUpdate]
  split_ifs <;> rfl

theorem tslUpdate_of_none (cfg : StratCfg) (st : StratState) (margin : ℚ)
    (h : st.tsl_pcnt = none) : tslUpdate cfg st margin = st := by
  unfold tslUpdate
  rw [if_neg (by simp [h])]

theorem isSellTriggerRest_prevent_loss (cfg : StratCfg) (st : StratState)
    (p pe margin ch : ℚ) :
    (isSellTriggerRest cfg st p pe margin ch).1.prevent_loss
      = st.prevent_loss := by
  simp only [isSellTriggerRest]
  split_ifs <;> simp [tslUpdate_prevent_loss]

theorem isSellTriggerRest_quiet (cfg : StratCfg) (st : StratState)
    (p pe margin ch : ℚ) (hts : st.tsl_pcnt = none)
    (hlow : cfg.sell_lower_pcnt = none)
    (hfib : cfg.disablefailsafefibonaccilow = true)
    (hupper : cfg.sell_upper_pcnt = none)
    (hres : cfg.sellatresistance = false) :
    (isSellTriggerRest cfg st p pe margin ch).2 = false := by
  unfold isSellTriggerRest
  rw [tslUpdate_of_none cfg st margin hts]
  split_ifs <;> simp_all

/-- Claim C3 (amended): with prevent-loss enabled and no custom-strategy
override, (1) `prevent_loss` latches exactly when the unlatched margin
exceeds `preventlosstrigger`; (2) on the latching call itself no sell
fires when the other exit triggers are off; (3) once latched, the
evaluation returns SELL whenever `margin ≤ preventlossmargin`, whatever
the rest of the configuration — no other trigger is consulted first;
(4) with `preventlosstrigger = 0`, SELL fires whenever
`margin ≤ preventlossmargin` AND either the latch is already set or
`margin ≤ 0` — when `0 < margin ≤ preventlossmargin` the latch branch
shadows the fire branch, contrary to the claim's "whenever". -/
theorem C3_preventloss_latch :
    (∀ (cfg : StratCfg) (st : StratState) (p pe margin ch : ℚ),
      cfg.csOverride = false → cfg.preventloss = true →
      st.prevent_loss = false → margin > cfg.preventlosstrigger →
      (isSellTrigger cfg st p pe margin ch).1.prevent_loss = true)
    ∧ (∀ (cfg : StratCfg) (st : StratState) (p pe margin ch : ℚ),
      cfg.csOverride = false → cfg.preventloss = true →
      st.prevent_loss = false → margin > cfg.preventlosstrigger →
      st.tsl_pcnt = none → cfg.sell_lower_pcnt = none →
      cfg.disablefailsafefibonaccilow = true → cfg.sell_upper_pcnt = none →
      cfg.sellatresistance = false →
      (isSellTrigger cfg st p pe margin ch).2 = false)
    ∧ (∀ (cfg : StratCfg) (st : StratState) (p pe margin ch : ℚ),
      cfg.csOverride = false → cfg.preventloss = true →
      st.prevent_loss = true → margin ≤ cfg.preventlossmargin →
      (isSellTrigger cfg st p pe margin ch).2 = true)
    ∧ (∀ (cfg : StratCfg) (st : StratState) (p pe margin ch : ℚ),
      cfg.csOverride = false → cfg.preventloss = true →
      cfg.preventlosstrigger = 0 → margin ≤ cfg.preventlossmargin →
      (st.prevent_loss = true ∨ margin ≤ 0) →
      (isSellTrigger cfg st p pe margin ch).2 = true) := by
  refine ⟨?_, ?_, ?_, ?_⟩
  · intro cfg st p pe margin ch hcs hpl hpf hm
    unfold isSellTrigger
    rw [if_neg (by simp [hcs]), if_pos ⟨hpl, hpf, hm⟩,
      isSellTriggerRest_prevent_loss]
  · intro cfg st p pe margin ch hcs hpl hpf hm hts hlow hfib hupper hres
    unfold isSellTrigger
    rw [if_neg (by simp [hcs]), if_pos ⟨hpl, hpf, hm⟩,
      isSellTriggerRest_quiet _ _ _ _ _ _ (by simpa using hts) hlow hfib
        hupper hres]
  · intro cfg st p pe margin ch hcs hpl hpf hm
    unfold isSellTrigger
    rw [if_neg (by simp [hcs]), if_neg (by simp [hpf]),
      if_pos ⟨hpl, Or.inl ⟨hpf, hm⟩⟩]
  · intro cfg st p pe margin ch hcs hpl htr hm hdisj
    unfold isSellTrigger
    have hneg : ¬ (cfg.preventloss = true ∧ st.prevent_loss = false
        ∧ margin > cfg.preventlosstrigger) := by
      rintro ⟨-, hpf, hgt⟩
      rcases hdisj with h | h
      · rw [h] at hpf; exact Bool.true_eq_false.mp hpf
      · rw [htr] at hgt; exact absurd h (not_le.mpr hgt)
    rw [if_neg (by simp [hcs]), if_neg hneg,
      if_pos ⟨hpl, Or.inr ⟨htr, hm⟩⟩]

/-- Witness for C3: the four behaviours of the amended claim at concrete
inputs — a latch at margin 5 over trigger 0, the same call returning no
sell, an immediate sell once latched at margin 0.5 ≤ 1, and an immediate
sell at trigger 0 with margin −1. -/
theorem C3_preventloss_latch_witness :
    (isSellTrigger cfgPL stPL 0 0 5 0).1.prevent_loss = true
    ∧ (isSellTrigger cfgPL stPL 0 0 5 0).2 = false
    ∧ (isSellTrigger cfgPL { stPL with prevent_loss := true }
        0 0 (1/2) 0).2 = true
    ∧ (isSellTrigger cfgPL stPL 0 0 (-1) 0).2 = true := by
  refine ⟨?_, ?_, ?_, ?_⟩
  · exact C3_preventloss_latch.1 cfgPL stPL 0 0 5 0 rfl rfl rfl
      (by norm_num [cfgPL])
  · exact C3_preventloss_latch.2.1 cfgPL stPL 0 0 5 0 rfl rfl rfl
      (by norm_num [cfgPL]) rfl rfl rfl rfl rfl
  · exact C3_preventloss_latch.2.2.1 cfgPL
      { stPL with prevent_loss := true } 0 0 (1/2) 0 rfl rfl rfl
      (by norm_num [cfgPL])
  · exact C3_preventloss_latch.2.2.2 cfgPL stPL 0 0 (-1) 0 rfl rfl rfl
      (by norm_num [cfgPL]) (Or.inr (by norm_num))

/-- Counterexample to C3 as stated: with `preventlosstrigger = 0`,
`preventlossmargin = 1` and an unlatched position at margin 0.5 — which
satisfies `margin ≤ preventlossmargin` — the evaluation does NOT return
SELL: the latch branch (margin > 0 = trigger) shadows the fire branch. -/
theorem C3_preventloss_latch_counterexample :
    (isSellTrigger cfgPL stPL 0 0 (1/2) 0).2 = false
    ∧ cfgPL.preventloss = true
    ∧ cfgPL.preventlosstrigger = 0
    ∧ ((1:ℚ)/2) ≤ cfgPL.preventlossmargin := by
  refine ⟨?_, rfl, rfl, by norm_num [cfgPL]⟩
  unfold isSellTrigger
  rw [if_neg (by simp [cfgPL]),
    if_pos ⟨rfl, rfl, by norm_num [cfgPL, stPL]⟩,
    isSellTriggerRest_quiet _ _ _ _ _ _ (by simp [stPL]) rfl rfl rfl rfl]

/-! ## No-sell-at-loss safety -/

theorem isSellTriggerRest_noloss (cfg : StratCfg) (st : StratState)
    (p pe margin ch : ℚ) (hsal : cfg.sellatloss = false)
    (hm : margin ≤ 0) :
    (isSellTriggerRest cfg st p pe margin ch).2 = false := by
  unfold isSellTriggerRest
  rw [if_pos ⟨hsal, hm⟩]

theorem recomputeFill_buyHigh (cfg : InlineCfg) (price : ℚ) (st : SimState) :
    recomputeFill cfg (buyHighUpdate price st)
      = buyHighUpdate price (recomputeFill cfg st) := by
  simp only [recomputeFill, buyHighUpdate]
  split_ifs <;> rfl

theorem tickMargin_buyHigh (cfg : InlineCfg) (price : ℚ) (st : SimState) :
    tickMargin cfg (buyHighUpdate price st) price
      = tickMargin cfg st price := rfl

/-- Claim C4: with sell-at-loss disabled and a computed margin ≤ 0 no
SELL is emitted, with the sole exception of the prevent-loss trigger.
(1) In the inline `executeJob` loop, the exit-trigger chain never leaves
`action = SELL` on such a tick (the no-sell-at-loss downgrade of lines
380-387 catches every earlier trigger, and sell-at-resistance needs
margin > 1).  (2) In `Strategy.is_sell_trigger`, a `True` result on such
a tick can only come from the prevent-loss block.  (3) In
`Strategy.is_wait_trigger`, a pending SELL on such a tick is downgraded
whenever prevent-loss is not active. -/
theorem C4_no_sell_at_loss :
    (∀ (cfg : InlineCfg) (row : IndRow) (price tradeExit : ℚ)
        (st : SimState),
      cfg.sell_at_loss = false →
      st.last_buy_size > 0 → st.last_buy_price > 0 → price > 0 →
      st.last_action = .buy → inlineMargin cfg st price ≤ 0 →
      (triggerBlock cfg row price tradeExit st).1.action ≠ .sell)
    ∧ (∀ (cfg : StratCfg) (st : StratState) (p pe margin ch : ℚ),
      cfg.sellatloss = false → margin ≤ 0 →
      (isSellTrigger cfg st p pe margin ch).2 = true →
      cfg.preventloss = true ∧ margin ≤ cfg.preventlossmargin
        ∧ (st.prevent_loss = true ∨ cfg.preventlosstrigger = 0))
    ∧ (∀ (cfg : StratCfg) (st : StratState) (margin : ℚ) (gc : Bool),
      st.action = .sell → cfg.sellatloss = false → margin ≤ 0 →
      ¬ ((st.prevent_loss = true ∧ margin ≤ cfg.preventlossmargin)
        ∨ (cfg.preventlosstrigger = 0 ∧ margin ≤ cfg.preventlossmargin)) →
      isWaitTrigger cfg st margin gc = true) := by
  refine ⟨?_, ?_, ?_⟩
  · intro cfg row price tradeExit st hsal hg1 hg2 hg3 hg4 hm
    unfold triggerBlock
    rw [if_pos ⟨hg1, hg2, hg3, hg4⟩]
    have hM : tickMargin cfg (recomputeFill cfg (buyHighUpdate price st))
        price = inlineMargin cfg st price := by
      rw [recomputeFill_buyHigh, tickMargin_buyHigh]; rfl
    rw [triggerChain, hM]
    rw [sellStage_neg _ _
      (fun hc => absurd hc.2.1 (not_lt.mpr (hm.trans (by norm_num))))]
    exact noSellAtLossStage_not_sell _ _ ⟨hsal, hm⟩
  · intro cfg st p pe margin ch hsal hm hfire
    unfold isSellTrigger at hfire
    split_ifs at hfire with h1 h2 h3
    · have hrw := isSellTriggerRest_noloss cfg
        { st with prevent_loss := true } p pe margin ch hsal hm
      rw [hrw] at hfire
      exact absurd hfire (by simp)
    · refine ⟨h3.1, ?_, ?_⟩
      · rcases h3.2 with h | h
        · exact h.2
        · exact h.2
      · rcases h3.2 with h | h
        · exact Or.inl h.1
        · exact Or.inr h.1
    · rw [isSellTriggerRest_noloss cfg st p pe margin ch hsal hm] at hfire
      exact absurd hfire (by simp)
  · intro cfg st margin gc hact hsal hm hexempt
    unfold isWaitTrigger
    rw [if_neg hexempt,
      if_neg (by rintro ⟨hb, -⟩; rw [hact] at hb; cases hb),
      if_pos ⟨hact, hsal, hm⟩]

/-- Witness for C4: (1) a tick at margin exactly 0 with sell-at-loss off
emits no SELL in the inline loop; (2) a prevent-loss fire at margin −1
with sell-at-loss off is traced back to the prevent-loss block; (3) the
wait-trigger downgrades a pending SELL at margin −1 when prevent-loss is
not active. -/
theorem C4_no_sell_at_loss_witness :
    (triggerBlock { cfgC1 with sell_at_loss := false } rowSell 100 0
      { stC1Mid with action := .sell }).1.action ≠ .sell
    ∧ (({ cfgPL with sellatloss := false } : StratCfg).preventloss = true
      ∧ (-1 : ℚ) ≤ ({ cfgPL with sellatloss := false } : StratCfg).preventlossmargin
      ∧ (({ stPL with prevent_loss := true } : StratState).prevent_loss = true
        ∨ ({ cfgPL with sellatloss := false } : StratCfg).preventlosstrigger = 0))
    ∧ isWaitTrigger { cfgPL with preventlosstrigger := 5, sellatloss := false }
        { stPL with action := .sell } (-1) true = true := by
  refine ⟨?_, ?_, ?_⟩
  · refine C4_no_sell_at_loss.1 { cfgC1 with sell_at_loss := false }
      rowSell 100 0 { stC1Mid with action := .sell } rfl
      (by norm_num [stC1Mid]) (by norm_num [stC1Mid]) (by norm_num)
      rfl ?_
    norm_num [inlineMargin, tickMargin, recomputeFill, stC1Mid, cfgC1,
      pyRound, halfEven]
  · refine C4_no_sell_at_loss.2.1 { cfgPL with sellatloss := false }
      { stPL with prevent_loss := true } 0 0 (-1) 0 rfl (by norm_num) ?_
    unfold isSellTrigger
    rw [if_neg (by simp [cfgPL]),
      if_neg (by rintro ⟨-, hpf, -⟩; cases hpf),
      if_pos ⟨rfl, Or.inl ⟨rfl, by norm_num [cfgPL]⟩⟩]
  · refine C4_no_sell_at_loss.2.2
      { cfgPL with preventlosstrigger := 5, sellatloss := false }
      { stPL with action := .sell } (-1) true rfl rfl (by norm_num) ?_
    rintro (⟨hpf, -⟩ | ⟨htr, -⟩)
    · exact absurd hpf (by simp [stPL])
    · exact absurd htr (by norm_num [cfgPL])

/-! ## Buy-near-high veto -/

/-- Claim C5: the buy-near-high exclusion.  (1) In
`Strategy.is_buy_signal` the exclusion rejects the buy whenever
`last_action == "SELL"`, the exclusion is enabled and the price exceeds
`close_max * (1 - nobuynearhighpcnt/100)`.  (2) In the inline loop, when
the exclusion is enabled and the price exceeds the hard-coded
`close_max * 0.97`, no BUY survives the veto and a pending BUY is
downgraded to WAIT. -/
theorem C5_buy_near_high_veto :
    (∀ (cfg : StratCfg) (st : StratState) (row : IndRow)
        (price closeMax : ℚ),
      st.last_action = .sell → cfg.disablebuynearhigh = true →
      price > closeMax * (1 - cfg.nobuynearhighpcnt / 100) →
      isBuySignal cfg st row price closeMax = false)
    ∧ (∀ (cfg : InlineCfg) (price closeMax : ℚ) (a : Act),
      cfg.disablebuynearhigh = true → price > closeMax * (97/100) →
      nearHighVeto cfg price closeMax a ≠ .buy
        ∧ (a = .buy → nearHighVeto cfg price closeMax a = .wait)) := by
  constructor
  · intro cfg st row price closeMax h1 h2 h3
    unfold isBuySignal
    rw [if_pos ⟨h1, h2, h3⟩]
  · intro cfg price closeMax a hd hp
    constructor
    · unfold nearHighVeto
      split_ifs with h
      · simp
      · intro hb
        exact h ⟨hb, hd, hp⟩
    · intro ha
      unfold nearHighVeto
      rw [if_pos ⟨ha, hd, hp⟩]

/-- Witness for C5: with the exclusion enabled at 3%, a price at the
close high is rejected by `is_buy_signal` after a SELL, and a pending
inline BUY at the hard-coded threshold is downgraded to WAIT. -/
theorem C5_buy_near_high_veto_witness :
    isBuySignal { cfgPL with disablebuynearhigh := true }
      { stPL with last_action := .sell } rowBuy 100 100 = false
    ∧ nearHighVeto { cfgC1 with disablebuynearhigh := true } 100 100 .buy
      = .wait := by
  refine ⟨C5_buy_near_high_veto.1 { cfgPL with disablebuynearhigh := true }
      { stPL with last_action := .sell } rowBuy 100 100 rfl rfl ?_,
    (C5_buy_near_high_veto.2 { cfgC1 with disablebuynearhigh := true }
      100 100 .buy rfl (by norm_num)).2 rfl⟩
  show (100:ℚ) > 100 * (1 - ({ cfgPL with disablebuynearhigh := true }
    : StratCfg).nobuynearhighpcnt / 100)
  norm_num [cfgPL]

/-- Counterexample to C5 as stated: a FLAT position whose last action is
the initial `''` (never traded) is not covered by the exclusion of
`Strategy.is_buy_signal` — with the exclusion enabled at 3% and the
price exactly at the close high, the buy signal still fires. -/
theorem C5_buy_near_high_veto_counterexample :
    isBuySignal { cfgPL with disablebuynearhigh := true }
      { stPL with last_action := .start } rowBuy 100 100 = true
    ∧ ({ stPL with last_action := .start } : StratState).last_action ≠ .buy
    ∧ ({ cfgPL with disablebuynearhigh := true }
        : StratCfg).disablebuynearhigh = true
    ∧ (100:ℚ) > 100 * (1 - ({ cfgPL with disablebuynearhigh := true }
        : StratCfg).nobuynearhighpcnt / 100) := by
  refine ⟨?_, by simp, rfl, by norm_num [cfgPL]⟩
  unfold isBuySignal
  rw [if_neg (by rintro ⟨hs, -⟩; cases hs),
    if_neg (by rintro ⟨hf, -⟩; simp [cfgPL] at hf),
    if_neg (by rintro ⟨-, hg⟩; simp [rowBuy] at hg),
    if_neg (by rintro ⟨he, -⟩; simp [cfgPL] at he),
    if_pos ⟨Or.inl (by simp [rowBuy]), Or.inl (by simp [rowBuy]),
      Or.inl (by norm_num [rowBuy]), Or.inl (by simp [rowBuy]),
      by simp⟩]

/-! ## Cross-over columns -/

theorem coColumn_getD_lt (hs : List Bool) (i : ℕ) (hi : i < hs.length) :
    (coColumn hs).getD i false
      = if hs.getD i false then
          (if i = 0 then true
           else decide (hs.getD i false ≠ hs.getD (i - 1) false))
        else false := by
  unfold coColumn
  rw [List.getD_eq_getElem?_getD, List.getElem?_map, List.getElem?_range hi]
  simp

theorem coColumn_holds_false (hs : List Bool) (i : ℕ)
    (h : hs.getD i false = false) :
    (coColumn hs).getD i false = false := by
  by_cases hi : i < hs.length
  · rw [coColumn_getD_lt hs i hi, h]
    simp
  · have hlen : (coColumn hs).length ≤ i := by
      unfold coColumn
      simpa using le_of_not_lt hi
    exact List.getD_eq_default _ _ hlen

theorem coColumn_iff (hs : List Bool) (i : ℕ) (h1 : 1 ≤ i) :
    ((coColumn hs).getD i false = true
      ↔ hs.getD i false = true ∧ hs.getD (i - 1) false = false) := by
  by_cases hi : i < hs.length
  · rw [coColumn_getD_lt hs i hi]
    have h0 : i ≠ 0 := by omega
    cases hA : hs.getD i false <;> cases hB : hs.getD (i - 1) false <;>
      simp [h0, hA, hB]
  · have hlen : (coColumn hs).length ≤ i := by
      unfold coColumn
      simpa using le_of_not_lt hi
    rw [List.getD_eq_default _ _ hlen,
      List.getD_eq_default _ _ (le_of_not_lt hi)]
    simp

/-- Claim C6: cross-over flag semantics.  A `…co` flag is false on every
row where its inequality column does not hold; and for every row index
`i ≥ 1` the flag is true exactly when the inequality holds at `i` and
did not hold at `i − 1` — for each of the pairs
`ema12gtema26`/`ema12gtema26co`, `ema12ltema26`/`ema12ltema26co`,
`macdgtsignal`/`macdgtsignalco`, `macdltsignal`/`macdltsignalco`, and
for `sma50gtsma200co`/`sma50ltsma200co` over their inequality
columns. -/
theorem C6_crossover_flags :
    (∀ (hs : List Bool) (i : ℕ),
      hs.getD i false = false → (coColumn hs).getD i false = false)
    ∧ (∀ (ema12 ema26 : List ℚ) (i : ℕ), 1 ≤ i →
      ((ema12gtema26co ema12 ema26).getD i false = true ↔
        (ema12gtema26col ema12 ema26).getD i false = true
          ∧ (ema12gtema26col ema12 ema26).getD (i - 1) false = false))
    ∧ (∀ (ema12 ema26 : List ℚ) (i : ℕ), 1 ≤ i →
      ((ema12ltema26co ema12 ema26).getD i false = true ↔
        (ema12ltema26col ema12 ema26).getD i false = true
          ∧ (ema12ltema26col ema12 ema26).getD (i - 1) false = false))
    ∧ (∀ (macd signal : List ℚ) (i : ℕ), 1 ≤ i →
      ((macdgtsignalco macd signal).getD i false = true ↔
        (macdgtsignalcol macd signal).getD i false = true
          ∧ (macdgtsignalcol macd signal).getD (i - 1) false = false))
    ∧ (∀ (macd signal : List ℚ) (i : ℕ), 1 ≤ i →
      ((macdltsignalco macd signal).getD i false = true ↔
        (macdltsignalcol macd signal).getD i false = true
          ∧ (macdltsignalcol macd signal).getD (i - 1) false = false))
    ∧ (∀ (sma50 sma200 : List ℚ) (i : ℕ), 1 ≤ i →
      ((sma50gtsma200co sma50 sma200).getD i false = true ↔
        (gtColumn sma50 sma200).getD i false = true
          ∧ (gtColumn sma50 sma200).getD (i - 1) false = false))
    ∧ (∀ (sma50 sma200 : List ℚ) (i : ℕ), 1 ≤ i →
      ((sma50ltsma200co sma50 sma200).getD i false = true ↔
        (ltColumn sma50 sma200).getD i false = true
          ∧ (ltColumn sma50 sma200).getD (i - 1) false = false)) := by
  refine ⟨coColumn_holds_false, ?_, ?_, ?_, ?_, ?_, ?_⟩
  · intro a b i h1
    exact coColumn_iff (ema12gtema26col a b) i h1
  · intro a b i h1
    exact coColumn_iff (ema12ltema26col a b) i h1
  · intro a b i h1
    exact coColumn_iff (macdgtsignalcol a b) i h1
  · intro a b i h1
    exact coColumn_iff (macdltsignalcol a b) i h1
  · intro a b i h1
    exact coColumn_iff (gtColumn a b) i h1
  · intro a b i h1
    exact coColumn_iff (ltColumn a b) i h1

/-- Witness for C6: on the two-candle series where the fast line crosses
the slow line between row 0 and row 1, each flag equivalence is
instantiated at row 1, and the zeroing at a non-holding row at row 0. -/
theorem C6_crossover_flags_witness :
    ((coColumn [false, true]).getD 0 false = false)
    ∧ ((ema12gtema26co [1, 3] [2, 2]).getD 1 false = true ↔
        (ema12gtema26col [1, 3] [2, 2]).getD 1 false = true
          ∧ (ema12gtema26col [1, 3] [2, 2]).getD 0 false = false)
    ∧ ((ema12ltema26co [2, 1] [2, 2]).getD 1 false = true ↔
        (ema12ltema26col [2, 1] [2, 2]).getD 1 false = true
          ∧ (ema12ltema26col [2, 1] [2, 2]).getD 0 false = false)
    ∧ ((macdgtsignalco [1, 3] [2, 2]).getD 1 false = true ↔
        (macdgtsignalcol [1, 3] [2, 2]).getD 1 false = true
          ∧ (macdgtsignalcol [1, 3] [2, 2]).getD 0 false = false)
    ∧ ((macdltsignalco [2, 1] [2, 2]).getD 1 false = true ↔
        (macdltsignalcol [2, 1] [2, 2]).getD 1 false = true
          ∧ (macdltsignalcol [2, 1] [2, 2]).getD 0 false = false)
    ∧ ((sma50gtsma200co [1, 3] [2, 2]).getD 1 false = true ↔
        (gtColumn [1, 3] [2, 2]).getD 1 false = true
          ∧ (gtColumn [1, 3] [2, 2]).getD 0 false = false)
    ∧ ((sma50ltsma200co [2, 1] [2, 2]).getD 1 false = true ↔
        (ltColumn [2, 1] [2, 2]).getD 1 false = true
          ∧ (ltColumn [2, 1] [2, 2]).getD 0 false = false) := by
  exact ⟨C6_crossover_flags.1 [false, true] 0 (by decide),
    C6_crossover_flags.2.1 [1, 3] [2, 2] 1 (by norm_num),
    C6_crossover_flags.2.2.1 [2, 1] [2, 2] 1 (by norm_num),
    C6_crossover_flags.2.2.2.1 [1, 3] [2, 2] 1 (by norm_num),
    C6_crossover_flags.2.2.2.2.1 [2, 1] [2, 2] 1 (by norm_num),
    C6_crossover_flags.2.2.2.2.2.1 [1, 3] [2, 2] 1 (by norm_num),
    C6_crossover_flags.2.2.2.2.2.2 [2, 1] [2, 2] 1 (by norm_num)⟩

/-! ## Fibonacci retracement levels -/

theorem fibBlock_pos {c : Prop} [Decidable c] {kvs : List (String × ℚ)}
    {pz : Prop} [Decidable pz] {kv0 : String × ℚ} {d : List (String × ℚ)}
    (hc : c) :
    fibBlock c kvs pz kv0 d = kvs.foldl (fun a p => dinsert a p.1 p.2) d :=
  if_pos hc

theorem fibBlock_neg {c : Prop} [Decidable c] {kvs : List (String × ℚ)}
    {pz : Prop} [Decidable pz] {kv0 : String × ℚ} {d : List (String × ℚ)}
    (hc : ¬c) (hz : ¬pz) :
    fibBlock c kvs pz kv0 d = d := by
  unfold fibBlock
  rw [if_neg hc, if_neg hz]

theorem fibBlock_zero {c : Prop} [Decidable c] {kvs : List (String × ℚ)}
    {pz : Prop} [Decidable pz] {kv0 : String × ℚ} {d : List (String × ℚ)}
    (hc : ¬c) (hz : pz) :
    fibBlock c kvs pz kv0 d = dinsert d kv0.1 kv0.2 := by
  unfold fibBlock
  rw [if_neg hc, if_pos hz]

theorem not_and_zero (P : Prop) : ¬((0:ℚ) ≠ 0 ∧ P) :=
  fun h => h.1 rfl

theorem fibLevels_band1 (pm pM price : ℚ) (h : pm < pM) (hp0 : price ≠ 0)
    (hB : price ≤ pm) :
    fibLevels pm pM price = [("ratio1", trunc2 pm)] := by
  have hd : 0 < pM - pm := by linarith
  have p1 : price ≠ 0 ∧ price ≤ pm := ⟨hp0, hB⟩
  have n2 : ¬(price ≠ 0 ∧ price > pm
      ∧ price ≤ pM - 768/1000 * (pM - pm)) := by
    rintro ⟨-, h1, h2⟩; linarith
  have n3 : ¬(price ≠ 0 ∧ price > pM - 768/1000 * (pM - pm)
      ∧ price ≤ pM - 618/1000 * (pM - pm)) := by
    rintro ⟨-, h1, h2⟩; linarith
  have n4 : ¬(price ≠ 0 ∧ price > pM - 618/1000 * (pM - pm)
      ∧ price ≤ pM - 5/10 * (pM - pm)) := by
    rintro ⟨-, h1, h2⟩; linarith
  have n5 : ¬(price ≠ 0 ∧ price > pM - 5/10 * (pM - pm)
      ∧ price ≤ pM - 382/1000 * (pM - pm)) := by
    rintro ⟨-, h1, h2⟩; linarith
  have n6 : ¬(price ≠ 0 ∧ price > pM - 382/1000 * (pM - pm)
      ∧ price ≤ pM - 286/1000 * (pM - pm)) := by
    rintro ⟨-, h1, h2⟩; linarith
  have n7 : ¬(price ≠ 0 ∧ price > pM - 286/1000 * (pM - pm)
      ∧ price ≤ pM) := by
    rintro ⟨-, h1, h2⟩; linarith
  have n8 : ¬(price ≠ 0 ∧ price < pM + 272/1000 * (pM - pm)
      ∧ price ≥ pM) := by
    rintro ⟨-, h1, h2⟩; linarith
  have n9 : ¬(price ≠ 0 ∧ price < pM + 414/1000 * (pM - pm)
      ∧ price ≥ pM + 272/1000 * (pM - pm)) := by
    rintro ⟨-, h1, h2⟩; linarith
  have n10 : ¬(price ≠ 0 ∧ price < pM + 618/1000 * (pM - pm)
      ∧ price ≥ pM + 414/1000 * (pM - pm)) := by
    rintro ⟨-, h1, h2⟩; linarith
  simp only [fibLevels]
  rw [fibBlock_pos p1, fibBlock_neg n2 hp0, fibBlock_neg n3 hp0,
    fibBlock_neg n4 hp0, fibBlock_neg n5 hp0, fibBlock_neg n6 hp0,
    fibBlock_neg n7 hp0, fibBlock_neg n8 hp0, fibBlock_neg n9 hp0,
    fibBlock_neg n10 hp0]
  simp [dinsert]

theorem fibLevels_band2 (pm pM price : ℚ) (h : pm < pM) (hp0 : price ≠ 0)
    (hA : pm < price) (hB : price ≤ pM - 768/1000 * (pM - pm)) :
    fibLevels pm pM price
      = [("ratio1", trunc2 pm),
         ("ratio0_768", trunc2 (pM - 768/1000 * (pM - pm)))] := by
  have hd : 0 < pM - pm := by linarith
  have n1 : ¬(price ≠ 0 ∧ price ≤ pm) := by
    rintro ⟨-, h1⟩; linarith
  have p2 : price ≠ 0 ∧ price > pm
      ∧ price ≤ pM - 768/1000 * (pM - pm) := ⟨hp0, hA, hB⟩
  have n3 : ¬(price ≠ 0 ∧ price > pM - 768/1000 * (pM - pm)
      ∧ price ≤ pM - 618/1000 * (pM - pm)) := by
    rintro ⟨-, h1, h2⟩; linarith
  have n4 : ¬(price ≠ 0 ∧ price > pM - 618/1000 * (pM - pm)
      ∧ price ≤ pM - 5/10 * (pM - pm)) := by
    rintro ⟨-, h1, h2⟩; linarith
  have n5 : ¬(price ≠ 0 ∧ price > pM - 5/10 * (pM - pm)
      ∧ price ≤ pM - 382/1000 * (pM - pm)) := by
    rintro ⟨-, h1, h2⟩; linarith
  have n6 : ¬(price ≠ 0 ∧ price > pM - 382/1000 * (pM - pm)
      ∧ price ≤ pM - 286/1000 * (pM - pm)) := by
    rintro ⟨-, h1, h2⟩; linarith
  have n7 : ¬(price ≠ 0 ∧ price > pM - 286/1000 * (pM - pm)
      ∧ price ≤ pM) := by
    rintro ⟨-, h1, h2⟩; linarith
  have n8 : ¬(price ≠ 0 ∧ price < pM + 272/1000 * (pM - pm)
      ∧ price ≥ pM) := by
    rintro ⟨-, h1, h2⟩; linarith
  have n9 : ¬(price ≠ 0 ∧ price < pM + 414/1000 * (pM - pm)
      ∧ price ≥ pM + 272/1000 * (pM - pm)) := by
    rintro ⟨-, h1, h2⟩; linarith
  have n10 : ¬(price ≠ 0 ∧ price < pM + 618/1000 * (pM - pm)
      ∧ price ≥ pM + 414/1000 * (pM - pm)) := by
    rintro ⟨-, h1, h2⟩; linarith
  simp only [fibLevels]
  rw [fibBlock_neg n1 hp0, fibBlock_pos p2, fibBlock_neg n3 hp0,
    fibBlock_neg n4 hp0, fibBlock_neg n5 hp0, fibBlock_neg n6 hp0,
    fibBlock_neg n7 hp0, fibBlock_neg n8 hp0, fibBlock_neg n9 hp0,
    fibBlock_neg n10 hp0]
  simp [dinsert]

theorem fibLevels_band3 (pm pM price : ℚ) (h : pm < pM) (hp0 : price ≠ 0)
    (hA : pM - 768/1000 * (pM - pm) < price)
    (hB : price ≤ pM - 618/1000 * (pM - pm)) :
    fibLevels pm pM price
      = [("ratio0_768", trunc2 (pM - 768/1000 * (pM - pm))),
         ("ratio0_618", trunc2 (pM - 618/1000 * (pM - pm)))] := by
  have hd : 0 < pM - pm := by linarith
  have n1 : ¬(price ≠ 0 ∧ price ≤ pm) := by
    rintro ⟨-, h1⟩; linarith
  have n2 : ¬(price ≠ 0 ∧ price > pm
      ∧ price ≤ pM - 768/1000 * (pM - pm)) := by
    rintro ⟨-, h1, h2⟩; linarith
  have p3 : price ≠ 0 ∧ price > pM - 768/1000 * (pM - pm)
      ∧ price ≤ pM - 618/1000 * (pM - pm) := ⟨hp0, hA, hB⟩
  have n4 : ¬(price ≠ 0 ∧ price > pM - 618/1000 * (pM - pm)
      ∧ price ≤ pM - 5/10 * (pM - pm)) := by
    rintro ⟨-, h1, h2⟩; linarith
  have n5 : ¬(price ≠ 0 ∧ price > pM - 5/10 * (pM - pm)
      ∧ price ≤ pM - 382/1000 * (pM - pm)) := by
    rintro ⟨-, h1, h2⟩; linarith
  have n6 : ¬(price ≠ 0 ∧ price > pM - 382/1000 * (pM - pm)
      ∧ price ≤ pM - 286/1000 * (pM - pm)) := by
    rintro ⟨-, h1, h2⟩; linarith
  have n7 : ¬(price ≠ 0 ∧ price > pM - 286/1000 * (pM - pm)
      ∧ price ≤ pM) := by
    rintro ⟨-, h1, h2⟩; linarith
  have n8 : ¬(price ≠ 0 ∧ price < pM + 272/1000 * (pM - pm)
      ∧ price ≥ pM) := by
    rintro ⟨-, h1, h2⟩; linarith
  have n9 : ¬(price ≠ 0 ∧ price < pM + 414/1000 * (pM - pm)
      ∧ price ≥ pM + 272/1000 * (pM - pm)) := by
    rintro ⟨-, h1, h2⟩; linarith
  have n10 : ¬(price ≠ 0 ∧ price < pM + 618/1000 * (pM - pm)
      ∧ price ≥ pM + 414/1000 * (pM - pm)) := by
    rintro ⟨-, h1, h2⟩; linarith
  simp only [fibLevels]
  rw [fibBlock_neg n1 hp0, fibBlock_neg n2 hp0, fibBlock_pos p3,
    fibBlock_neg n4 hp0, fibBlock_neg n5 hp0, fibBlock_neg n6 hp0,
    fibBlock_neg n7 hp0, fibBlock_neg n8 hp0, fibBlock_neg n9 hp0,
    fibBlock_neg n10 hp0]
  simp [dinsert]

theorem fibLevels_band4 (pm pM price : ℚ) (h : pm < pM) (hp0 : price ≠ 0)
    (hA : pM - 618/1000 * (pM - pm) < price)
    (hB : price ≤ pM - 5/10 * (pM - pm)) :
    fibLevels pm pM price
      = [("ratio0_618", trunc2 (pM - 618/1000 * (pM - pm))),
         ("ratio0_5", trunc2 (pM - 5/10 * (pM - pm)))] := by
  have hd : 0 < pM - pm := by linarith
  have n1 : ¬(price ≠ 0 ∧ price ≤ pm) := by
    rintro ⟨-, h1⟩; linarith
  have n2 : ¬(price ≠ 0 ∧ price > pm
      ∧ price ≤ pM - 768/1000 * (pM - pm)) := by
    rintro ⟨-, h1, h2⟩; linarith
  have n3 : ¬(price ≠ 0 ∧ price > pM - 768/1000 * (pM - pm)
      ∧ price ≤ pM - 618/1000 * (pM - pm)) := by
    rintro ⟨-, h1, h2⟩; linarith
  have p4 : price ≠ 0 ∧ price > pM - 618/1000 * (pM - pm)
      ∧ price ≤ pM - 5/10 * (pM - pm) := ⟨hp0, hA, hB⟩
  have n5 : ¬(price ≠ 0 ∧ price > pM - 5/10 * (pM - pm)
      ∧ price ≤ pM - 382/1000 * (pM - pm)) := by
    rintro ⟨-, h1, h2⟩; linarith
  have n6 : ¬(price ≠ 0 ∧ price > pM - 382/1000 * (pM - pm)
      ∧ price ≤ pM - 286/1000 * (pM - pm)) := by
    rintro ⟨-, h1, h2⟩; linarith
  have n7 : ¬(price ≠ 0 ∧ price > pM - 286/1000 * (pM - pm)
      ∧ price ≤ pM) := by
    rintro ⟨-, h1, h2⟩; linarith
  have n8 : ¬(price ≠ 0 ∧ price < pM + 272/1000 * (pM - pm)
      ∧ price ≥ pM) := by
    rintro ⟨-, h1, h2⟩; linarith
  have n9 : ¬(price ≠ 0 ∧ price < pM + 414/1000 * (pM - pm)
      ∧ price ≥ pM + 272/1000 * (pM - pm)) := by
    rintro ⟨-, h1, h2⟩; linarith
  have n10 : ¬(price ≠ 0 ∧ price < pM + 618/1000 * (pM - pm)
      ∧ price ≥ pM + 414/1000 * (pM - pm)) := by
    rintro ⟨-, h1, h2⟩; linarith
  simp only [fibLevels]
  rw [fibBlock_neg n1 hp0, fibBlock_neg n2 hp0, fibBlock_neg n3 hp0,
    fibBlock_pos p4, fibBlock_neg n5 hp0, fibBlock_neg n6 hp0,
    fibBlock_neg n7 hp0, fibBlock_neg n8 hp0, fibBlock_neg n9 hp0,
    fibBlock_neg n10 hp0]
  simp [dinsert]

theorem fibLevels_band5 (pm pM price : ℚ) (h : pm < pM) (hp0 : price ≠ 0)
    (hA : pM - 5/10 * (pM - pm) < price)
    (hB : price ≤ pM - 382/1000 * (pM - pm)) :
    fibLevels pm pM price
      = [("ratio0_5", trunc2 (pM - 5/10 * (pM - pm))),
         ("ratio0_382", trunc2 (pM - 382/1000 * (pM - pm)))] := by
  have hd : 0 < pM - pm := by linarith
  have n1 : ¬(price ≠ 0 ∧ price ≤ pm) := by
    rintro ⟨-, h1⟩; linarith
  have n2 : ¬(price ≠ 0 ∧ price > pm
      ∧ price ≤ pM - 768/1000 * (pM - pm)) := by
    rintro ⟨-, h1, h2⟩; linarith
  have n3 : ¬(price ≠ 0 ∧ price > pM - 768/1000 * (pM - pm)
      ∧ price ≤ pM - 618/1000 * (pM - pm)) := by
    rintro ⟨-, h1, h2⟩; linarith
  have n4 : ¬(price ≠ 0 ∧ price > pM - 618/1000 * (pM - pm)
      ∧ price ≤ pM - 5/10 * (pM - pm)) := by
    rintro ⟨-, h1, h2⟩; linarith
  have p5 : price ≠ 0 ∧ price > pM - 5/10 * (pM - pm)
      ∧ price ≤ pM - 382/1000 * (pM - pm) := ⟨hp0, hA, hB⟩
  have n6 : ¬(price ≠ 0 ∧ price > pM - 382/1000 * (pM - pm)
      ∧ price ≤ pM - 286/1000 * (pM - pm)) := by
    rintro ⟨-, h1, h2⟩; linarith
  have n7 : ¬(price ≠ 0 ∧ price > pM - 286/1000 * (pM - pm)
      ∧ price ≤ pM) := by
    rintro ⟨-, h1, h2⟩; linarith
  have n8 : ¬(price ≠ 0 ∧ price < pM + 272/1000 * (pM - pm)
      ∧ price ≥ pM) := by
    rintro ⟨-, h1, h2⟩; linarith
  have n9 : ¬(price ≠ 0 ∧ price < pM + 414/1000 * (pM - pm)
      ∧ price ≥ pM + 272/1000 * (pM - pm)) := by
    rintro ⟨-, h1, h2⟩; linarith
  have n10 : ¬(price ≠ 0 ∧ price < pM + 618/1000 * (pM - pm)
      ∧ price ≥ pM + 414/1000 * (pM - pm)) := by
    rintro ⟨-, h1, h2⟩; linarith
  simp only [fibLevels]
  rw [fibBlock_neg n1 hp0, fibBlock_neg n2 hp0, fibBlock_neg n3 hp0,
    fibBlock_neg n4 hp0, fibBlock_pos p5, fibBlock_neg n6 hp0,
    fibBlock_neg n7 hp0, fibBlock_neg n8 hp0, fibBlock_neg n9 hp0,
    fibBlock_neg n10 hp0]
  simp [dinsert]

theorem fibLevels_band6 (pm pM price : ℚ) (h : pm < pM) (hp0 : price ≠ 0)
    (hA : pM - 382/1000 * (pM - pm) < price)
    (hB : price ≤ pM - 286/1000 * (pM - pm)) :
    fibLevels pm pM price
      = [("ratio0_382", trunc2 (pM - 382/1000 * (pM - pm))),
         ("ratio0_286", trunc2 (pM - 286/1000 * (pM - pm)))] := by
  have hd : 0 < pM - pm := by linarith
  have n1 : ¬(price ≠ 0 ∧ price ≤ pm) := by
    rintro ⟨-, h1⟩; linarith
  have n2 : ¬(price ≠ 0 ∧ price > pm
      ∧ price ≤ pM - 768/1000 * (pM - pm)) := by
    rintro ⟨-, h1, h2⟩; linarith
  have n3 : ¬(price ≠ 0 ∧ price > pM - 768/1000 * (pM - pm)
      ∧ price ≤ pM - 618/1000 * (pM - pm)) := by
    rintro ⟨-, h1, h2⟩; linarith
  have n4 : ¬(price ≠ 0 ∧ price > pM - 618/1000 * (pM - pm)
      ∧ price ≤ pM - 5/10 * (pM - pm)) := by
    rintro ⟨-, h1, h2⟩; linarith
  have n5 : ¬(price ≠ 0 ∧ price > pM - 5/10 * (pM - pm)
      ∧ price ≤ pM - 382/1000 * (pM - pm)) := by
    rintro ⟨-, h1, h2⟩; linarith
  have p6 : price ≠ 0 ∧ price > pM - 382/1000 * (pM - pm)
      ∧ price ≤ pM - 286/1000 * (pM - pm) := ⟨hp0, hA, hB⟩
  have n7 : ¬(price ≠ 0 ∧ price > pM - 286/1000 * (pM - pm)
      ∧ price ≤ pM) := by
    rintro ⟨-, h1, h2⟩; linarith
  have n8 : ¬(price ≠ 0 ∧ price < pM + 272/1000 * (pM - pm)
      ∧ price ≥ pM) := by
    rintro ⟨-, h1, h2⟩; linarith
  have n9 : ¬(price ≠ 0 ∧ price < pM + 414/1000 * (pM - pm)
      ∧ price ≥ pM + 272/1000 * (pM - pm)) := by
    rintro ⟨-, h1, h2⟩; linarith
  have n10 : ¬(price ≠ 0 ∧ price < pM + 618/1000 * (pM - pm)
      ∧ price ≥ pM + 414/1000 * (pM - pm)) := by
    rintro ⟨-, h1, h2⟩; linarith
  simp only [fibLevels]
  rw [fibBlock_neg n1 hp0, fibBlock_neg n2 hp0, fibBlock_neg n3 hp0,
    fibBlock_neg n4 hp0, fibBlock_neg n5 hp0, fibBlock_pos p6,
    fibBlock_neg n7 hp0, fibBlock_neg n8 hp0, fibBlock_neg n9 hp0,
    fibBlock_neg n10 hp0]
  simp [dinsert]

theorem fibLevels_band7 (pm pM price : ℚ) (h : pm < pM) (hp0 : price ≠ 0)
    (hA : pM - 286/1000 * (pM - pm) < price) (hB : price < pM) :
    fibLevels pm pM price
      = [("ratio0_286", trunc2 (pM - 286/1000 * (pM - pm))),
         ("ratio0", trunc2 pM)] := by
  have hd : 0 < pM - pm := by linarith
  have n1 : ¬(price ≠ 0 ∧ price ≤ pm) := by
    rintro ⟨-, h1⟩; linarith
  have n2 : ¬(price ≠ 0 ∧ price > pm
      ∧ price ≤ pM - 768/1000 * (pM - pm)) := by
    rintro ⟨-, h1, h2⟩; linarith
  have n3 : ¬(price ≠ 0 ∧ price > pM - 768/1000 * (pM - pm)
      ∧ price ≤ pM - 618/1000 * (pM - pm)) := by
    rintro ⟨-, h1, h2⟩; linarith
  have n4 : ¬(price ≠ 0 ∧ price > pM - 618/1000 * (pM - pm)
      ∧ price ≤ pM - 5/10 * (pM - pm)) := by
    rintro ⟨-, h1, h2⟩; linarith
  have n5 : ¬(price ≠ 0 ∧ price > pM - 5/10 * (pM - pm)
      ∧ price ≤ pM - 382/1000 * (pM - pm)) := by
    rintro ⟨-, h1, h2⟩; linarith
  have n6 : ¬(price ≠ 0 ∧ price > pM - 382/1000 * (pM - pm)
      ∧ price ≤ pM - 286/1000 * (pM - pm)) := by
    rintro ⟨-, h1, h2⟩; linarith
  have p7 : price ≠ 0 ∧ price > pM - 286/1000 * (pM - pm)
      ∧ price ≤ pM := ⟨hp0, hA, le_of_lt hB⟩
  have n8 : ¬(price ≠ 0 ∧ price < pM + 272/1000 * (pM - pm)
      ∧ price ≥ pM) := by
    rintro ⟨-, h1, h2⟩; linarith
  have n9 : ¬(price ≠ 0 ∧ price < pM + 414/1000 * (pM - pm)
      ∧ price ≥ pM + 272/1000 * (pM - pm)) := by
    rintro ⟨-, h1, h2⟩; linarith
  have n10 : ¬(price ≠ 0 ∧ price < pM + 618/1000 * (pM - pm)
      ∧ price ≥ pM + 414/1000 * (pM - pm)) := by
    rintro ⟨-, h1, h2⟩; linarith
  simp only [fibLevels]
  rw [fibBlock_neg n1 hp0, fibBlock_neg n2 hp0, fibBlock_neg n3 hp0,
    fibBlock_neg n4 hp0, fibBlock_neg n5 hp0, fibBlock_neg n6 hp0,
    fibBlock_pos p7, fibBlock_neg n8 hp0, fibBlock_neg n9 hp0,
    fibBlock_neg n10 hp0]
  simp [dinsert]

theorem fibLevels_band8 (pm pM price : ℚ) (h : pm < pM) (hp0 : price ≠ 0)
    (hA : pM < price) (hB : price < pM + 272/1000 * (pM - pm)) :
    fibLevels pm pM price
      = [("ratio0", trunc2 pM),
         ("ratio1_272", trunc2 (pM + 272/1000 * (pM - pm)))] := by
  have hd : 0 < pM - pm := by linarith
  have n1 : ¬(price ≠ 0 ∧ price ≤ pm) := by
    rintro ⟨-, h1⟩; linarith
  have n2 : ¬(price ≠ 0 ∧ price > pm
      ∧ price ≤ pM - 768/1000 * (pM - pm)) := by
    rintro ⟨-, h1, h2⟩; linarith
  have n3 : ¬(price ≠ 0 ∧ price > pM - 768/1000 * (pM - pm)
      ∧ price ≤ pM - 618/1000 * (pM - pm)) := by
    rintro ⟨-, h1, h2⟩; linarith
  have n4 : ¬(price ≠ 0 ∧ price > pM - 618/1000 * (pM - pm)
      ∧ price ≤ pM - 5/10 * (pM - pm)) := by
    rintro ⟨-, h1, h2⟩; linarith
  have n5 : ¬(price ≠ 0 ∧ price > pM - 5/10 * (pM - pm)
      ∧ price ≤ pM - 382/1000 * (pM - pm)) := by
    rintro ⟨-, h1, h2⟩; linarith
  have n6 : ¬(price ≠ 0 ∧ price > pM - 382/1000 * (pM - pm)
      ∧ price ≤ pM - 286/1000 * (pM - pm)) := by
    rintro ⟨-, h1, h2⟩; linarith
  have n7 : ¬(price ≠ 0 ∧ price > pM - 286/1000 * (pM - pm)
      ∧ price ≤ pM) := by
    rintro ⟨-, h1, h2⟩; linarith
  have p8 : price ≠ 0 ∧ price < pM + 272/1000 * (pM - pm)
      ∧ price ≥ pM := ⟨hp0, hB, le_of_lt hA⟩
  have n9 : ¬(price ≠ 0 ∧ price < pM + 414/1000 * (pM - pm)
      ∧ price ≥ pM + 272/1000 * (pM - pm)) := by
    rintro ⟨-, h1, h2⟩; linarith
  have n10 : ¬(price ≠ 0 ∧ price < pM + 618/1000 * (pM - pm)
      ∧ price ≥ pM + 414/1000 * (pM - pm)) := by
    rintro ⟨-, h1, h2⟩; linarith
  simp only [fibLevels]
  rw [fibBlock_neg n1 hp0, fibBlock_neg n2 hp0, fibBlock_neg n3 hp0,
    fibBlock_neg n4 hp0, fibBlock_neg n5 hp0, fibBlock_neg n6 hp0,
    fibBlock_neg n7 hp0, fibBlock_pos p8, fibBlock_neg n9 hp0,
    fibBlock_neg n10 hp0]
  simp [dinsert]

theorem fibLevels_band9 (pm pM price : ℚ) (h : pm < pM) (hp0 : price ≠ 0)
    (hA : pM + 272/1000 * (pM - pm) ≤ price)
    (hB : price < pM + 414/1000 * (pM - pm)) :
    fibLevels pm pM price
      = [("ratio1_272", trunc2 pM),
         ("ratio1_414", trunc2 (pM + 414/1000 * (pM - pm)))] := by
  have hd : 0 < pM - pm := by linarith
  have n1 : ¬(price ≠ 0 ∧ price ≤ pm) := by
    rintro ⟨-, h1⟩; linarith
  have n2 : ¬(price ≠ 0 ∧ price > pm
      ∧ price ≤ pM - 768/1000 * (pM - pm)) := by
    rintro ⟨-, h1, h2⟩; linarith
  have n3 : ¬(price ≠ 0 ∧ price > pM - 768/1000 * (pM - pm)
      ∧ price ≤ pM - 618/1000 * (pM - pm)) := by
    rintro ⟨-, h1, h2⟩; linarith
  have n4 : ¬(price ≠ 0 ∧ price > pM - 618/1000 * (pM - pm)
      ∧ price ≤ pM - 5/10 * (pM - pm)) := by
    rintro ⟨-, h1, h2⟩; linarith
  have n5 : ¬(price ≠ 0 ∧ price > pM - 5/10 * (pM - pm)
      ∧ price ≤ pM - 382/1000 * (pM - pm)) := by
    rintro ⟨-, h1, h2⟩; linarith
  have n6 : ¬(price ≠ 0 ∧ price > pM - 382/1000 * (pM - pm)
      ∧ price ≤ pM - 286/1000 * (pM - pm)) := by
    rintro ⟨-, h1, h2⟩; linarith
  have n7 : ¬(price ≠ 0 ∧ price > pM - 286/1000 * (pM - pm)
      ∧ price ≤ pM) := by
    rintro ⟨-, h1, h2⟩; linarith
  have n8 : ¬(price ≠ 0 ∧ price < pM + 272/1000 * (pM - pm)
      ∧ price ≥ pM) := by
    rintro ⟨-, h1, h2⟩; linarith
  have p9 : price ≠ 0 ∧ price < pM + 414/1000 * (pM - pm)
      ∧ price ≥ pM + 272/1000 * (pM - pm) := ⟨hp0, hB, hA⟩
  have n10 : ¬(price ≠ 0 ∧ price < pM + 618/1000 * (pM - pm)
      ∧ price ≥ pM + 414/1000 * (pM - pm)) := by
    rintro ⟨-, h1, h2⟩; linarith
  simp only [fibLevels]
  rw [fibBlock_neg n1 hp0, fibBlock_neg n2 hp0, fibBlock_neg n3 hp0,
    fibBlock_neg n4 hp0, fibBlock_neg n5 hp0, fibBlock_neg n6 hp0,
    fibBlock_neg n7 hp0, fibBlock_neg n8 hp0, fibBlock_pos p9,
    fibBlock_neg n10 hp0]
  simp [dinsert]

theorem fibLevels_band10 (pm pM price : ℚ) (h : pm < pM) (hp0 : price ≠ 0)
    (hA : pM + 414/1000 * (pM - pm) ≤ price)
    (hB : price < pM + 618/1000 * (pM - pm)) :
    fibLevels pm pM price
      = [("ratio1_618", trunc2 (pM + 618/1000 * (pM - pm)))] := by
  have hd : 0 < pM - pm := by linarith
  have n1 : ¬(price ≠ 0 ∧ price ≤ pm) := by
    rintro ⟨-, h1⟩; linarith
  have n2 : ¬(price ≠ 0 ∧ price > pm
      ∧ price ≤ pM - 768/1000 * (pM - pm)) := by
    rintro ⟨-, h1, h2⟩; linarith
  have n3 : ¬(price ≠ 0 ∧ price > pM - 768/1000 * (pM - pm)
      ∧ price ≤ pM - 618/1000 * (pM - pm)) := by
    rintro ⟨-, h1, h2⟩; linarith
  have n4 : ¬(price ≠ 0 ∧ price > pM - 618/1000 * (pM - pm)
      ∧ price ≤ pM - 5/10 * (pM - pm)) := by
    rintro ⟨-, h1, h2⟩; linarith
  have n5 : ¬(price ≠ 0 ∧ price > pM - 5/10 * (pM - pm)
      ∧ price ≤ pM - 382/1000 * (pM - pm)) := by
    rintro ⟨-, h1, h2⟩; linarith
  have n6 : ¬(price ≠ 0 ∧ price > pM - 382/1000 * (pM - pm)
      ∧ price ≤ pM - 286/1000 * (pM - pm)) := by
    rintro ⟨-, h1, h2⟩; linarith
  have n7 : ¬(price ≠ 0 ∧ price > pM - 286/1000 * (pM - pm)
      ∧ price ≤ pM) := by
    rintro ⟨-, h1, h2⟩; linarith
  have n8 : ¬(price ≠ 0 ∧ price < pM + 272/1000 * (pM - pm)
      ∧ price ≥ pM) := by
    rintro ⟨-, h1, h2⟩; linarith
  have n9 : ¬(price ≠ 0 ∧ price < pM + 414/1000 * (pM - pm)
      ∧ price ≥ pM + 272/1000 * (pM - pm)) := by
    rintro ⟨-, h1, h2⟩; linarith
  have p10 : price ≠ 0 ∧ price < pM + 618/1000 * (pM - pm)
      ∧ price ≥ pM + 414/1000 * (pM - pm) := ⟨hp0, hB, hA⟩
  simp only [fibLevels]
  rw [fibBlock_neg n1 hp0, fibBlock_neg n2 hp0, fibBlock_neg n3 hp0,
    fibBlock_neg n4 hp0, fibBlock_neg n5 hp0, fibBlock_neg n6 hp0,
    fibBlock_neg n7 hp0, fibBlock_neg n8 hp0, fibBlock_neg n9 hp0,
    fibBlock_pos p10]
  simp [dinsert]

theorem fibLevels_at_max (pm pM : ℚ) (h : pm < pM) (hp0 : pM ≠ 0) :
    fibLevels pm pM pM
      = [("ratio0_286", trunc2 (pM - 286/1000 * (pM - pm))),
         ("ratio0", trunc2 pM),
         ("ratio1_272", trunc2 (pM + 272/1000 * (pM - pm)))] := by
  have hd : 0 < pM - pm := by linarith
  have n1 : ¬(pM ≠ 0 ∧ pM ≤ pm) := by
    rintro ⟨-, h1⟩; linarith
  have n2 : ¬(pM ≠ 0 ∧ pM > pm ∧ pM ≤ pM - 768/1000 * (pM - pm)) := by
    rintro ⟨-, h1, h2⟩; linarith
  have n3 : ¬(pM ≠ 0 ∧ pM > pM - 768/1000 * (pM - pm)
      ∧ pM ≤ pM - 618/1000 * (pM - pm)) := by
    rintro ⟨-, h1, h2⟩; linarith
  have n4 : ¬(pM ≠ 0 ∧ pM > pM - 618/1000 * (pM - pm)
      ∧ pM ≤ pM - 5/10 * (pM - pm)) := by
    rintro ⟨-, h1, h2⟩; linarith
  have n5 : ¬(pM ≠ 0 ∧ pM > pM - 5/10 * (pM - pm)
      ∧ pM ≤ pM - 382/1000 * (pM - pm)) := by
    rintro ⟨-, h1, h2⟩; linarith
  have n6 : ¬(pM ≠ 0 ∧ pM > pM - 382/1000 * (pM - pm)
      ∧ pM ≤ pM - 286/1000 * (pM - pm)) := by
    rintro ⟨-, h1, h2⟩; linarith
  have p7 : pM ≠ 0 ∧ pM > pM - 286/1000 * (pM - pm) ∧ pM ≤ pM :=
    ⟨hp0, by linarith, le_refl pM⟩
  have p8 : pM ≠ 0 ∧ pM < pM + 272/1000 * (pM - pm) ∧ pM ≥ pM :=
    ⟨hp0, by linarith, le_refl pM⟩
  have n9 : ¬(pM ≠ 0 ∧ pM < pM + 414/1000 * (pM - pm)
      ∧ pM ≥ pM + 272/1000 * (pM - pm)) := by
    rintro ⟨-, h1, h2⟩; linarith
  have n10 : ¬(pM ≠ 0 ∧ pM < pM + 618/1000 * (pM - pm)
      ∧ pM ≥ pM + 414/1000 * (pM - pm)) := by
    rintro ⟨-, h1, h2⟩; linarith
  simp only [fibLevels]
  rw [fibBlock_neg n1 hp0, fibBlock_neg n2 hp0, fibBlock_neg n3 hp0,
    fibBlock_neg n4 hp0, fibBlock_neg n5 hp0, fibBlock_neg n6 hp0,
    fibBlock_pos p7, fibBlock_pos p8, fibBlock_neg n9 hp0,
    fibBlock_neg n10 hp0]
  simp [dinsert]

theorem fibLevels_beyond (pm pM price : ℚ) (h : pm < pM) (hp0 : price ≠ 0)
    (hA : pM + 618/1000 * (pM - pm) ≤ price) :
    fibLevels pm pM price = [] := by
  have hd : 0 < pM - pm := by linarith
  have n1 : ¬(price ≠ 0 ∧ price ≤ pm) := by
    rintro ⟨-, h1⟩; linarith
  have n2 : ¬(price ≠ 0 ∧ price > pm
      ∧ price ≤ pM - 768/1000 * (pM - pm)) := by
    rintro ⟨-, h1, h2⟩; linarith
  have n3 : ¬(price ≠ 0 ∧ price > pM - 768/1000 * (pM - pm)
      ∧ price ≤ pM - 618/1000 * (pM - pm)) := by
    rintro ⟨-, h1, h2⟩; linarith
  have n4 : ¬(price ≠ 0 ∧ price > pM - 618/1000 * (pM - pm)
      ∧ price ≤ pM - 5/10 * (pM - pm)) := by
    rintro ⟨-, h1, h2⟩; linarith
  have n5 : ¬(price ≠ 0 ∧ price > pM - 5/10 * (pM - pm)
      ∧ price ≤ pM - 382/1000 * (pM - pm)) := by
    rintro ⟨-, h1, h2⟩; linarith
  have n6 : ¬(price ≠ 0 ∧ price > pM - 382/1000 * (pM - pm)
      ∧ price ≤ pM - 286/1000 * (pM - pm)) := by
    rintro ⟨-, h1, h2⟩; linarith
  have n7 : ¬(price ≠ 0 ∧ price > pM - 286/1000 * (pM - pm)
      ∧ price ≤ pM) := by
    rintro ⟨-, h1, h2⟩; linarith
  have n8 : ¬(price ≠ 0 ∧ price < pM + 272/1000 * (pM - pm)
      ∧ price ≥ pM) := by
    rintro ⟨-, h1, h2⟩; linarith
  have n9 : ¬(price ≠ 0 ∧ price < pM + 414/1000 * (pM - pm)
      ∧ price ≥ pM + 272/1000 * (pM - pm)) := by
    rintro ⟨-, h1, h2⟩; linarith
  have n10 : ¬(price ≠ 0 ∧ price < pM + 618/1000 * (pM - pm)
      ∧ price ≥ pM + 414/1000 * (pM - pm)) := by
    rintro ⟨-, h1, h2⟩; linarith
  simp only [fibLevels]
  rw [fibBlock_neg n1 hp0, fibBlock_neg n2 hp0, fibBlock_neg n3 hp0,
    fibBlock_neg n4 hp0, fibBlock_neg n5 hp0, fibBlock_neg n6 hp0,
    fibBlock_neg n7 hp0, fibBlock_neg n8 hp0, fibBlock_neg n9 hp0,
    fibBlock_neg n10 hp0]

theorem fibLevels_zero (pm pM : ℚ) :
    fibLevels pm pM 0
      = [("ratio1", trunc2 pm),
         ("ratio0_768", trunc2 (pM - 768/1000 * (pM - pm))),
         ("ratio0_618", trunc2 (pM - 618/1000 * (pM - pm))),
         ("ratio0_5", trunc2 (pM - 5/10 * (pM - pm))),
         ("ratio0_382", trunc2 (pM - 382/1000 * (pM - pm))),
         ("ratio0_286", trunc2 (pM - 286/1000 * (pM - pm))),
         ("ratio0", trunc2 pM),
         ("ratio1_272", trunc2 (pM + 272/1000 * (pM - pm))),
         ("ratio1_414", trunc2 (pM + 414/1000 * (pM - pm))),
         ("ratio1_618", trunc2 (pM + 618/1000 * (pM - pm)))] := by
  simp only [fibLevels]
  rw [fibBlock_zero (not_and_zero _) trivial,
    fibBlock_zero (not_and_zero _) trivial,
    fibBlock_zero (not_and_zero _) trivial,
    fibBlock_zero (not_and_zero _) trivial,
    fibBlock_zero (not_and_zero _) trivial,
    fibBlock_zero (not_and_zero _) trivial,
    fibBlock_zero (not_and_zero _) trivial,
    fibBlock_zero (not_and_zero _) trivial,
    fibBlock_zero (not_and_zero _) trivial,
    fibBlock_zero (not_and_zero _) trivial]
  simp [dinsert]

/-- Claim C7: the Fibonacci retracement dictionary, band by band, for a
series with close minimum `pm` strictly below close maximum `pM`.  In
the interior bands the function returns the two adjacent scaled levels,
each truncated to 2 decimals — except the band
`[pM + 0.272·diff, pM + 0.414·diff)`, where the `ratio1_272` entry is
`truncate(price_max, 2)` instead of its own scaled level (`Trading.py`
line 711).  At the edges the dictionary has one entry
(`price ≤ price_min` and `[pM + 0.414·diff, pM + 0.618·diff)`), three
entries (`price == price_max`), or none (`price ≥ pM + 0.618·diff`);
with `price == 0` every level is returned with its correct scaled
value. -/
theorem C7_fib_levels :
    (∀ (closes : List ℚ) (price : ℚ),
      getFibonacciRetracementLevels closes price
        = fibLevels (listMin closes) (listMax closes) price)
    ∧ ∀ (pm pM price : ℚ), pm < pM →
      ((price ≠ 0 → price ≤ pm →
        fibLevels pm pM price = [("ratio1", trunc2 pm)])
      ∧ (price ≠ 0 → pm < price → price ≤ pM - 768/1000 * (pM - pm) →
        fibLevels pm pM price
          = [("ratio1", trunc2 pm),
             ("ratio0_768", trunc2 (pM - 768/1000 * (pM - pm)))])
      ∧ (price ≠ 0 → pM - 768/1000 * (pM - pm) < price →
          price ≤ pM - 618/1000 * (pM - pm) →
        fibLevels pm pM price
          = [("ratio0_768", trunc2 (pM - 768/1000 * (pM - pm))),
             ("ratio0_618", trunc2 (pM - 618/1000 * (pM - pm)))])
      ∧ (price ≠ 0 → pM - 618/1000 * (pM - pm) < price →
          price ≤ pM - 5/10 * (pM - pm) →
        fibLevels pm pM price
          = [("ratio0_618", trunc2 (pM - 618/1000 * (pM - pm))),
             ("ratio0_5", trunc2 (pM - 5/10 * (pM - pm)))])
      ∧ (price ≠ 0 → pM - 5/10 * (pM - pm) < price →
          price ≤ pM - 382/1000 * (pM - pm) →
        fibLevels pm pM price
          = [("ratio0_5", trunc2 (pM - 5/10 * (pM - pm))),
             ("ratio0_382", trunc2 (pM - 382/1000 * (pM - pm)))])
      ∧ (price ≠ 0 → pM - 382/1000 * (pM - pm) < price →
          price ≤ pM - 286/1000 * (pM - pm) →
        fibLevels pm pM price
          = [("ratio0_382", trunc2 (pM - 382/1000 * (pM - pm))),
             ("ratio0_286", trunc2 (pM - 286/1000 * (pM - pm)))])
      ∧ (price ≠ 0 → pM - 286/1000 * (pM - pm) < price → price < pM →
        fibLevels pm pM price
          = [("ratio0_286", trunc2 (pM - 286/1000 * (pM - pm))),
             ("ratio0", trunc2 pM)])
      ∧ (pM ≠ 0 →
        fibLevels pm pM pM
          = [("ratio0_286", trunc2 (pM - 286/1000 * (pM - pm))),
             ("ratio0", trunc2 pM),
             ("ratio1_272", trunc2 (pM + 272/1000 * (pM - pm)))])
      ∧ (price ≠ 0 → pM < price → price < pM + 272/1000 * (pM - pm) →
        fibLevels pm pM price
          = [("ratio0", trunc2 pM),
             ("ratio1_272", trunc2 (pM + 272/1000 * (pM - pm)))])
      ∧ (price ≠ 0 → pM + 272/1000 * (pM - pm) ≤ price →
          price < pM + 414/1000 * (pM - pm) →
        fibLevels pm pM price
          = [("ratio1_272", trunc2 pM),
             ("ratio1_414", trunc2 (pM + 414/1000 * (pM - pm)))])
      ∧ (price ≠ 0 → pM + 414/1000 * (pM - pm) ≤ price →
          price < pM + 618/1000 * (pM - pm) →
        fibLevels pm pM price
          = [("ratio1_618", trunc2 (pM + 618/1000 * (pM - pm)))])
      ∧ (price ≠ 0 → pM + 618/1000 * (pM - pm) ≤ price →
        fibLevels pm pM price = [])
      ∧ fibLevels pm pM 0
          = [("ratio1", trunc2 pm),
             ("ratio0_768", trunc2 (pM - 768/1000 * (pM - pm))),
             ("ratio0_618", trunc2 (pM - 618/1000 * (pM - pm))),
             ("ratio0_5", trunc2 (pM - 5/10 * (pM - pm))),
             ("ratio0_382", trunc2 (pM - 382/1000 * (pM - pm))),
             ("ratio0_286", trunc2 (pM - 286/1000 * (pM - pm))),
             ("ratio0", trunc2 pM),
             ("ratio1_272", trunc2 (pM + 272/1000 * (pM - pm))),
             ("ratio1_414", trunc2 (pM + 414/1000 * (pM - pm))),
             ("ratio1_618", trunc2 (pM + 618/1000 * (pM - pm)))]) := by
  refine ⟨fun _ _ => rfl, ?_⟩
  intro pm pM price h
  exact ⟨fibLevels_band1 pm pM price h,
    fibLevels_band2 pm pM price h,
    fibLevels_band3 pm pM price h,
    fibLevels_band4 pm pM price h,
    fibLevels_band5 pm pM price h,
    fibLevels_band6 pm pM price h,
    fibLevels_band7 pm pM price h,
    fibLevels_at_max pm pM h,
    fibLevels_band8 pm pM price h,
    fibLevels_band9 pm pM price h,
    fibLevels_band10 pm pM price h,
    fibLevels_beyond pm pM price h,
    fibLevels_zero pm pM⟩

/-- Witness for C7: every band instantiated on the series with close
minimum 0 and close maximum 100 at a price inside the band. -/
theorem C7_fib_levels_witness :
    getFibonacciRetracementLevels [(0:ℚ), 100] 130
      = fibLevels (listMin [(0:ℚ), 100]) (listMax [(0:ℚ), 100]) 130
    ∧ fibLevels 0 100 (-5) = [("ratio1", trunc2 0)]
    ∧ fibLevels 0 100 10
      = [("ratio1", trunc2 0),
         ("ratio0_768", trunc2 (100 - 768/1000 * ((100:ℚ) - 0)))]
    ∧ fibLevels 0 100 30
      = [("ratio0_768", trunc2 (100 - 768/1000 * ((100:ℚ) - 0))),
         ("ratio0_618", trunc2 (100 - 618/1000 * ((100:ℚ) - 0)))]
    ∧ fibLevels 0 100 45
      = [("ratio0_618", trunc2 (100 - 618/1000 * ((100:ℚ) - 0))),
         ("ratio0_5", trunc2 (100 - 5/10 * ((100:ℚ) - 0)))]
    ∧ fibLevels 0 100 55
      = [("ratio0_5", trunc2 (100 - 5/10 * ((100:ℚ) - 0))),
         ("ratio0_382", trunc2 (100 - 382/1000 * ((100:ℚ) - 0)))]
    ∧ fibLevels 0 100 65
      = [("ratio0_382", trunc2 (100 - 382/1000 * ((100:ℚ) - 0))),
         ("ratio0_286", trunc2 (100 - 286/1000 * ((100:ℚ) - 0)))]
    ∧ fibLevels 0 100 90
      = [("ratio0_286", trunc2 (100 - 286/1000 * ((100:ℚ) - 0))),
         ("ratio0", trunc2 100)]
    ∧ fibLevels 0 100 100
      = [("ratio0_286", trunc2 (100 - 286/1000 * ((100:ℚ) - 0))),
         ("ratio0", trunc2 100),
         ("ratio1_272", trunc2 (100 + 272/1000 * ((100:ℚ) - 0)))]
    ∧ fibLevels 0 100 110
      = [("ratio0", trunc2 100),
         ("ratio1_272", trunc2 (100 + 272/1000 * ((100:ℚ) - 0)))]
    ∧ fibLevels 0 100 130
      = [("ratio1_272", trunc2 100),
         ("ratio1_414", trunc2 (100 + 414/1000 * ((100:ℚ) - 0)))]
    ∧ fibLevels 0 100 145
      = [("ratio1_618", trunc2 (100 + 618/1000 * ((100:ℚ) - 0)))]
    ∧ fibLevels 0 100 200 = []
    ∧ fibLevels 0 100 0
      = [("ratio1", trunc2 0),
         ("ratio0_768", trunc2 (100 - 768/1000 * ((100:ℚ) - 0))),
         ("ratio0_618", trunc2 (100 - 618/1000 * ((100:ℚ) - 0))),
         ("ratio0_5", trunc2 (100 - 5/10 * ((100:ℚ) - 0))),
         ("ratio0_382", trunc2 (100 - 382/1000 * ((100:ℚ) - 0))),
         ("ratio0_286", trunc2 (100 - 286/1000 * ((100:ℚ) - 0))),
         ("ratio0", trunc2 100),
         ("ratio1_272", trunc2 (100 + 272/1000 * ((100:ℚ) - 0))),
         ("ratio1_414", trunc2 (100 + 414/1000 * ((100:ℚ) - 0))),
         ("ratio1_618", trunc2 (100 + 618/1000 * ((100:ℚ) - 0)))] := by
  refine ⟨C7_fib_levels.1 [(0:ℚ), 100] 130, ?_, ?_, ?_, ?_, ?_, ?_, ?_,
    ?_, ?_, ?_, ?_, ?_, ?_⟩
  · exact (C7_fib_levels.2 0 100 (-5) (by norm_num)).1
      (by norm_num) (by norm_num)
  · exact (C7_fib_levels.2 0 100 10 (by norm_num)).2.1
      (by norm_num) (by norm_num) (by norm_num)
  · exact (C7_fib_levels.2 0 100 30 (by norm_num)).2.2.1
      (by norm_num) (by norm_num) (by norm_num)
  · exact (C7_fib_levels.2 0 100 45 (by norm_num)).2.2.2.1
      (by norm_num) (by norm_num) (by norm_num)
  · exact (C7_fib_levels.2 0 100 55 (by norm_num)).2.2.2.2.1
      (by norm_num) (by norm_num) (by norm_num)
  · exact (C7_fib_levels.2 0 100 65 (by norm_num)).2.2.2.2.2.1
      (by norm_num) (by norm_num) (by norm_num)
  · exact (C7_fib_levels.2 0 100 90 (by norm_num)).2.2.2.2.2.2.1
      (by norm_num) (by norm_num) (by norm_num)
  · exact (C7_fib_levels.2 0 100 100 (by norm_num)).2.2.2.2.2.2.2.1
      (by norm_num)
  · exact (C7_fib_levels.2 0 100 110 (by norm_num)).2.2.2.2.2.2.2.2.1
      (by norm_num) (by norm_num) (by norm_num)
  · exact (C7_fib_levels.2 0 100 130 (by norm_num)).2.2.2.2.2.2.2.2.2.1
      (by norm_num) (by norm_num) (by norm_num)
  · exact (C7_fib_levels.2 0 100 145
      (by norm_num)).2.2.2.2.2.2.2.2.2.2.1
      (by norm_num) (by norm_num) (by norm_num)
  · exact (C7_fib_levels.2 0 100 200
      (by norm_num)).2.2.2.2.2.2.2.2.2.2.2.1
      (by norm_num) (by norm_num)
  · exact (C7_fib_levels.2 0 100 0
      (by norm_num)).2.2.2.2.2.2.2.2.2.2.2.2

/-- Counterexample to C7 as stated: on the series with closes 0 and 100
and reference price 130 — inside the band `[127.2, 141.4)` — the
returned `ratio1_272` level is `truncate(price_max, 2) = 100`, not its
own scaled ratio value `truncate(100 + 0.272·100, 2) = 127.2`. -/
theorem C7_fib_levels_counterexample :
    getFibonacciRetracementLevels [(0:ℚ), 100] 130
      = [("ratio1_272", 100), ("ratio1_414", 707/5)]
    ∧ trunc2 (100 + 272/1000 * ((100:ℚ) - 0)) = 636/5
    ∧ (100:ℚ) ≠ 636/5 := by
  have hmin : listMin [(0:ℚ), 100] = 0 := by
    norm_num [listMin, min_def]
  have hmax : listMax [(0:ℚ), 100] = 100 := by
    norm_num [listMax, max_def]
  have hlev : getFibonacciRetracementLevels [(0:ℚ), 100] 130
      = fibLevels 0 100 130 := by
    unfold getFibonacciRetracementLevels
    rw [hmin, hmax]
  have hband := fibLevels_band9 0 100 130 (by norm_num) (by norm_num)
    (by norm_num) (by norm_num)
  refine ⟨?_, ?_, by norm_num⟩
  · rw [hlev, hband]
    norm_num [trunc2, pyTrunc]
  · norm_num [trunc2, pyTrunc]

/-! ## Trailing buy -/

theorem trailingBuyBranch_wbp (cfg : StratCfg) (st : StratState)
    (price pc : ℚ) :
    (trailingBuyBranch cfg st price pc).1.waiting_buy_price
      = if price < st.waiting_buy_price then price
        else st.waiting_buy_price := by
  unfold trailingBuyBranch
  split_ifs <;> rfl

theorem trailingBuyBranch_tb (cfg : StratCfg) (st : StratState)
    (price pc : ℚ) :
    (trailingBuyBranch cfg st price pc).1.trailing_buy
      = st.trailing_buy := by
  unfold trailingBuyBranch
  split_ifs <;> rfl

theorem checkTrailingBuy_armed (cfg : StratCfg) (st : StratState)
    (price : ℚ) (h1 : st.trailing_buy = true)
    (h2 : st.waiting_buy_price > 0) :
    (checkTrailingBuy cfg st price).1.waiting_buy_price
      = (if price < st.waiting_buy_price then price
         else st.waiting_buy_price)
    ∧ (checkTrailingBuy cfg st price).1.trailing_buy = true := by
  unfold checkTrailingBuy
  rw [if_pos ⟨h1, h2⟩]
  exact ⟨trailingBuyBranch_wbp cfg st price _,
    (trailingBuyBranch_tb cfg st price _).trans h1⟩

theorem checkTrailingBuy_seed (cfg : StratCfg) (st : StratState)
    (price : ℚ)
    (h : ¬(st.trailing_buy = true ∧ st.waiting_buy_price > 0)) :
    (checkTrailingBuy cfg st price).1.waiting_buy_price = price
    ∧ (checkTrailingBuy cfg st price).1.trailing_buy = true := by
  unfold checkTrailingBuy
  rw [if_neg h]
  constructor
  · rw [trailingBuyBranch_wbp]
    simp
  · exact trailingBuyBranch_tb cfg _ price 0

theorem checkTrailingBuy_step (cfg : StratCfg) (st : StratState)
    (price : ℚ) (h1 : st.trailing_buy = true)
    (h2 : st.waiting_buy_price > 0) (hp : 0 < price) :
    (checkTrailingBuy cfg st price).1.waiting_buy_price
        ≤ st.waiting_buy_price
    ∧ (checkTrailingBuy cfg st price).1.trailing_buy = true
    ∧ (checkTrailingBuy cfg st price).1.waiting_buy_price > 0 := by
  obtain ⟨hw, ht⟩ := checkTrailingBuy_armed cfg st price h1 h2
  rw [hw]
  refine ⟨?_, ht, ?_⟩
  · split_ifs with hc
    · exact le_of_lt hc
    · exact le_refl _
  · split_ifs with hc
    · exact hp
    · exact h2

theorem runTrailingBuy_mono (cfg : StratCfg) (prices : List ℚ) :
    ∀ (st : StratState), st.trailing_buy = true →
      st.waiting_buy_price > 0 → (∀ p ∈ prices, 0 < p) →
      (runTrailingBuy cfg st prices).waiting_buy_price
          ≤ st.waiting_buy_price
      ∧ (runTrailingBuy cfg st prices).trailing_buy = true
      ∧ (runTrailingBuy cfg st prices).waiting_buy_price > 0 := by
  induction prices with
  | nil => exact fun st h1 h2 _ => ⟨le_refl _, h1, h2⟩
  | cons p ps ih =>
    intro st h1 h2 hpos
    obtain ⟨hle, ht, hw⟩ := checkTrailingBuy_step cfg st p h1 h2
      (hpos p (List.mem_cons_self p ps))
    obtain ⟨ihle, iht, ihw⟩ := ih (checkTrailingBuy cfg st p).1 ht hw
      (fun q hq => hpos q (List.mem_cons_of_mem p hq))
    exact ⟨le_trans ihle hle, iht, ihw⟩

/-- Claim C8: trailing-buy monotonicity.  (1) On arming
(`trailing_buy` not yet set), the wait price is seeded with the current
intent price and the machine is armed.  (2) While armed, a single call
replaces the wait price by the current price exactly when the price
dropped below it, and leaves it unchanged otherwise — so it never
increases.  (3) Over any run of calls at positive prices from an armed
state, the wait price is non-increasing and the machine stays armed. -/
theorem C8_trailing_buy_monotone :
    (∀ (cfg : StratCfg) (st : StratState) (price : ℚ),
      st.trailing_buy = false →
      (checkTrailingBuy cfg st price).1.waiting_buy_price = price
        ∧ (checkTrailingBuy cfg st price).1.trailing_buy = true)
    ∧ (∀ (cfg : StratCfg) (st : StratState) (price : ℚ),
      st.trailing_buy = true → st.waiting_buy_price > 0 →
      (checkTrailingBuy cfg st price).1.waiting_buy_price
        = (if price < st.waiting_buy_price then price
           else st.waiting_buy_price)
        ∧ (checkTrailingBuy cfg st price).1.waiting_buy_price
            ≤ st.waiting_buy_price)
    ∧ (∀ (cfg : StratCfg) (st : StratState) (prices : List ℚ),
      st.trailing_buy = true → st.waiting_buy_price > 0 →
      (∀ p ∈ prices, 0 < p) →
      (runTrailingBuy cfg st prices).waiting_buy_price
          ≤ st.waiting_buy_price
        ∧ (runTrailingBuy cfg st prices).trailing_buy = true) := by
  refine ⟨?_, ?_, ?_⟩
  · intro cfg st price h
    exact checkTrailingBuy_seed cfg st price (by rintro ⟨h1, -⟩; rw [h] at h1; cases h1)
  · intro cfg st price h1 h2
    obtain ⟨hw, -⟩ := checkTrailingBuy_armed cfg st price h1 h2
    refine ⟨hw, ?_⟩
    rw [hw]
    split_ifs with hc
    · exact le_of_lt hc
    · exact le_refl _
  · intro cfg st prices h1 h2 hpos
    obtain ⟨hle, ht, -⟩ := runTrailingBuy_mono cfg prices st h1 h2 hpos
    exact ⟨hle, ht⟩

/-- Witness for C8: seeding an unarmed state at price 50; a single armed
step at wait price 100 against price 90; a three-tick run 90, 95, 80
from wait price 100. -/
theorem C8_trailing_buy_monotone_witness :
    ((checkTrailingBuy cfgPL stPL 50).1.waiting_buy_price = 50
      ∧ (checkTrailingBuy cfgPL stPL 50).1.trailing_buy = true)
    ∧ ((checkTrailingBuy cfgPL stTB 90).1.waiting_buy_price
      = (if (90:ℚ) < stTB.waiting_buy_price then 90
         else stTB.waiting_buy_price)
      ∧ (checkTrailingBuy cfgPL stTB 90).1.waiting_buy_price
        ≤ stTB.waiting_buy_price)
    ∧ ((runTrailingBuy cfgPL stTB [90, 95, 80]).waiting_buy_price
        ≤ stTB.waiting_buy_price
      ∧ (runTrailingBuy cfgPL stTB [90, 95, 80]).trailing_buy
        = true) := by
  refine ⟨C8_trailing_buy_monotone.1 cfgPL stPL 50 rfl,
    C8_trailing_buy_monotone.2.1 cfgPL stTB 90 rfl (by norm_num [stTB]),
    C8_trailing_buy_monotone.2.2 cfgPL stTB
      [90, 95, 80] rfl (by norm_num [stTB]) ?_⟩
  intro p hp
  simp only [List.mem_cons, List.not_mem_nil, or_false] at hp
  rcases hp with h | h | h <;> rw [h] <;> norm_num

/-! ## Higher-timeframe bull predicates -/

/-- Claim C9: with the `self.df_last` attribute unset — as in the
repository as shipped, where no code ever assigns it — both
higher-timeframe bull predicates return `False` (the internal
`AttributeError` is caught by the blanket `except`), whatever the data
acquisition and the locally computed bull values do; consequently the
smart-switch condition requiring both predicates is never satisfied. -/
theorem C9_bull_predicates_total :
    ∀ (bot : BullBot), bot.dfLastBull = none →
      is1hEMA1226Bull bot = false
      ∧ is6hEMA1226Bull bot = false
      ∧ ∀ (smartSwitch granIs1h : Bool),
        smartSwitchDown smartSwitch granIs1h bot = false := by
  intro bot h
  refine ⟨?_, ?_, ?_⟩
  · unfold is1hEMA1226Bull
    rw [h]
    split_ifs <;> rfl
  · unfold is6hEMA1226Bull
    rw [h]
    split_ifs <;> rfl
  · intro ss g1
    unfold smartSwitchDown is1hEMA1226Bull
    rw [h]
    split_ifs <;> simp

/-- Witness for C9: a bot whose fetches succeed and whose local bull
columns are both true still answers `False` on both predicates and never
smart-switches, because `self.df_last` is unset. -/
theorem C9_bull_predicates_total_witness :
    is1hEMA1226Bull botC9 = false
    ∧ is6hEMA1226Bull botC9 = false
    ∧ ∀ (smartSwitch granIs1h : Bool),
      smartSwitchDown smartSwitch granIs1h botC9 = false :=
  C9_bull_predicates_total botC9 rfl

/-! ## Frame effect of a simulated SELL -/

/-- Claim C10: the post-SELL reset of `pycryptobot.py` lines 897-901
zeroes `last_buy_price`, `last_buy_size` and `last_buy_high` and leaves
every other state field unchanged — in particular `last_buy_filled` and
`last_buy_fee` keep the values of the position just closed; the whole
test-mode SELL dispatch preserves them too, a subsequent test-mode BUY
does not write them either, and the fill back-fill of lines 280-282 is
skipped whenever `last_buy_filled` is non-zero — so the next position
starts with the stale fill and fee. -/
theorem C10_sell_reset_frame :
    (∀ (st : SimState),
      (sellReset st).last_buy_price = 0
      ∧ (sellReset st).last_buy_size = 0
      ∧ (sellReset st).last_buy_high = 0
      ∧ (sellReset st).last_buy_filled = st.last_buy_filled
      ∧ (sellReset st).last_buy_fee = st.last_buy_fee
      ∧ (sellReset st).action = st.action
      ∧ (sellReset st).last_action = st.last_action
      ∧ (sellReset st).fib_low = st.fib_low
      ∧ (sellReset st).fib_high = st.fib_high
      ∧ (sellReset st).buy_count = st.buy_count
      ∧ (sellReset st).sell_count = st.sell_count
      ∧ (sellReset st).buy_sum = st.buy_sum
      ∧ (sellReset st).sell_sum = st.sell_sum)
    ∧ (∀ (cfg : InlineCfg) (price : ℚ) (st : SimState),
      (simSellUpdate cfg price st).last_buy_filled = st.last_buy_filled
      ∧ (simSellUpdate cfg price st).last_buy_fee = st.last_buy_fee)
    ∧ (∀ (cfg : InlineCfg) (price : ℚ) (st : SimState),
      (simBuyUpdate cfg price st).last_buy_filled = st.last_buy_filled
      ∧ (simBuyUpdate cfg price st).last_buy_fee = st.last_buy_fee)
    ∧ (∀ (cfg : InlineCfg) (st : SimState), st.last_buy_filled ≠ 0 →
      recomputeFill cfg st = st) := by
  refine ⟨?_, ?_, ?_, ?_⟩
  · intro st
    exact ⟨rfl, rfl, rfl, rfl, rfl, rfl, rfl, rfl, rfl, rfl, rfl,
      rfl, rfl⟩
  · intro cfg price st
    exact ⟨rfl, rfl⟩
  · intro cfg price st
    exact ⟨rfl, rfl⟩
  · intro cfg st h
    unfold recomputeFill
    rw [if_neg (by rintro ⟨-, h2⟩; exact h h2)]

/-- Witness for C10: the state closed by the concrete two-tick run kept
its fill 10 and fee 5 through the reset, and the next tick's back-fill
is a no-op on it. -/
theorem C10_sell_reset_frame_witness :
    stC1Final.last_buy_filled ≠ 0
    ∧ recomputeFill cfgC1 stC1Final = stC1Final := by
  have h : stC1Final.last_buy_filled ≠ 0 := by
    norm_num [stC1Final]
  exact ⟨h, C10_sell_reset_frame.2.2.2 cfgC1 stC1Final h⟩

end PyBot
